import Mathlib

/-!
Verification of the rule-based document analyzer shared by the Cluster API
helper scripts (`migration_checker.py`, `audit_security.py`,
`check_provider_contract.py`, `lint_cluster_templates.py`,
`validate_manifests.py`).

Documents are parsed JSON/YAML trees.  Python values are modelled by `Json`;
Python's `None` and JSON `null` are both `Json.null` (they are the same value
in Python, which is the crux of several resolution claims).  Operations that
can raise in Python (attribute access on a non-dict, `in` on a number, ...)
are modelled in `Except String`, so that "the code raises here" is an
explicit `.error` and every theorem about a run carries an `.ok` hypothesis.
-/

/-- A parsed JSON/YAML value.  Python `None` and JSON `null` are both
`Json.null`.  Mappings keep insertion order, as Python dicts do. -/
inductive Json where
  | null : Json
  | bool (b : Bool) : Json
  | int (n : Int) : Json
  | str (s : String) : Json
  | arr (elems : List Json) : Json
  | obj (fields : List (String × Json)) : Json

/-- Is this value a mapping? (Python `isinstance(x, dict)`). -/
def Json.isObj : Json → Bool
  | .obj _ => true
  | _ => false

/-- Is this value `null` (Python `None`)? -/
def Json.isNull : Json → Bool
  | .null => true
  | _ => false

/-- Python truthiness: `None`, `False`, `0`, `""`, `[]`, `{}` are falsy. -/
def truthy : Json → Bool
  | .null => false
  | .bool b => b
  | .int n => n != 0
  | .str s => !(s == "")
  | .arr xs => !xs.isEmpty
  | .obj m => !m.isEmpty

/-- Key lookup in a mapping; `none` when the receiver is not a mapping or the
key is missing.  (Pure helper used to state claims about stored values.) -/
def Json.lookup : Json → String → Option Json
  | .obj m, k => m.lookup k
  | _, _ => none

/-- Python `d.get(key, default)`: the stored value (even `None`) when the key
is present, the default when absent; raises `AttributeError` when the
receiver is not a dict. -/
def pyGet (j : Json) (k : String) (d : Json) : Except String Json :=
  match j with
  | .obj m => .ok ((m.lookup k).getD d)
  | _ => .error "AttributeError"

/-- Contiguous-sublist test on character lists (Python `needle in hay` for
strings). -/
def charsContain (needle : List Char) : List Char → Bool
  | [] => needle.isEmpty
  | c :: rest => needle.isPrefixOf (c :: rest) || charsContain needle rest

/-- Python `k in j`: key membership for dicts, element membership for lists,
substring for strings; `TypeError` otherwise. -/
def pyIn (k : String) (j : Json) : Except String Bool :=
  match j with
  | .obj m => .ok (m.any (fun p => p.1 == k))
  | .arr xs => .ok (xs.any (fun x => match x with | .str s => s == k | _ => false))
  | .str s => .ok (charsContain k.data s.data)
  | _ => .error "TypeError"

/-- Python `j[k]` on a dict (callers index only after an `in` check). -/
def pyIndex (j : Json) (k : String) : Except String Json :=
  match j with
  | .obj m =>
    match m.lookup k with
    | some v => .ok v
    | none => .error "KeyError"
  | _ => .error "TypeError"

/-- Python `str(x)` for the scalar values the scripts interpolate into
messages.  Containers never appear in the interpolated positions the claims
exercise, so rendering them is left out of the model (an `.error`). -/
def pyStrE : Json → Except String String
  | .str s => .ok s
  | .int n => .ok (toString n)
  | .bool true => .ok "True"
  | .bool false => .ok "False"
  | .null => .ok "None"
  | _ => .error "container rendering not modelled"

/-- Python integer coercion for comparisons: `bool` is an `int` subtype
(`True == 1`); anything else raises `TypeError` when compared with `<`. -/
def asInt : Json → Except String Int
  | .int n => .ok n
  | .bool b => .ok (if b then 1 else 0)
  | _ => .error "TypeError"

/-- Python iteration over a value expected to be a list. -/
def asList : Json → Except String (List Json)
  | .arr xs => .ok xs
  | _ => .error "TypeError"

/-- Helper for `splitDots`: accumulate the current segment (reversed). -/
def splitDotsAux : List Char → List Char → List String
  | acc, [] => [String.mk acc.reverse]
  | acc, '.' :: rest => String.mk acc.reverse :: splitDotsAux [] rest
  | acc, c :: rest => splitDotsAux (c :: acc) rest

/-- Python `path.split(".")` (the scripts only ever split on a dot). -/
def splitDots (s : String) : List String := splitDotsAux [] s.data

/-! ## Field resolution (`migration_checker.get_nested`) -/

/-- `migration_checker.get_nested`, keys pre-split: walk the keys, using
`current.get(key)` (default `None`) at mappings and returning `None` as soon
as the current value is not a mapping.  A present `null` and a missing key
both produce `Json.null`. -/
def getNested : Json → List String → Json
  | current, [] => current
  | .obj m, key :: rest => getNested ((m.lookup key).getD Json.null) rest
  | _, _ :: _ => Json.null

/-- `get_nested(data, path)` with the dotted path split as Python does. -/
def getNestedPath (data : Json) (path : String) : Json :=
  getNested data (splitDots path)

/-- Claim-side notion of presence: every key on the path is present in a
mapping; the resolved stored value is returned (even `null`).  `none` when
some key is missing or an intermediate value is not a mapping. -/
def pathLookup : Json → List String → Option Json
  | v, [] => some v
  | .obj m, key :: rest =>
    match m.lookup key with
    | some v => pathLookup v rest
    | none => none
  | _, _ :: _ => none

/-- Modelled from the spec: the required-present rule of the Rule Evaluator
(spec section 4.2, "Finding iff resolution is absent") over the repo's field
resolver.  No generic field-path required-present evaluator exists in the
scripts; this is the spec's rule over `get_nested`. -/
def requiredPresentFires (doc : Json) (path : String) : Bool :=
  (getNestedPath doc path).isNull

/-- The deprecated-field walk of `lint_cluster_templates.lint_document`
(lines 288-296): descend only through mappings whose current key is present;
any missing key or non-mapping intermediate means "not found". -/
def deprecatedFieldFound : Json → List String → Bool
  | _, [] => true
  | .obj m, part :: rest =>
    match m.lookup part with
    | some v => deprecatedFieldFound v rest
    | none => false
  | _, _ :: _ => false

/-! ### Resolution lemmas -/

theorem getNested_append (doc : Json) (p q : List String) (hq : q ≠ []) :
    getNested doc (p ++ q) = getNested (getNested doc p) q := by
  induction p generalizing doc with
  | nil => cases doc <;> rfl
  | cons k rest ih =>
    cases doc with
    | obj m => simpa [getNested] using ih _
    | null =>
      cases q with
      | nil => exact absurd rfl hq
      | cons a b => simp [getNested]
    | bool b =>
      cases q with
      | nil => exact absurd rfl hq
      | cons a c => simp [getNested]
    | int n =>
      cases q with
      | nil => exact absurd rfl hq
      | cons a c => simp [getNested]
    | str s =>
      cases q with
      | nil => exact absurd rfl hq
      | cons a c => simp [getNested]
    | arr xs =>
      cases q with
      | nil => exact absurd rfl hq
      | cons a c => simp [getNested]

theorem getNested_nonObj_cons (v : Json) (k : String) (rest : List String)
    (h : v.isObj = false) : getNested v (k :: rest) = Json.null := by
  cases v <;> simp [Json.isObj] at h ⊢ <;> rfl

/-! ## `migration_checker.py` -/

/-- One migration issue (class `MigrationIssue`); the constructor's default
severity is `"warning"`, written explicitly at each call site below. -/
structure MigrationIssue where
  path : String
  field : String
  reason : String
  action : String
  severity : String
deriving DecidableEq, Repr

/-- The `DEPRECATED_FIELDS` table of `migration_checker.py`:
kind to (field path, reason, action). -/
def DEPRECATED_FIELDS_MIG : List (String × List (String × String × String)) :=
  [("Cluster",
    [("spec.topology.rolloutAfter", "Never implemented, removed in v1beta2",
      "Remove this field"),
     ("spec.topology.class", "Renamed to spec.topology.classRef.name",
      "Move to spec.topology.classRef.name"),
     ("spec.topology.classNamespace", "Renamed to spec.topology.classRef.namespace",
      "Move to spec.topology.classRef.namespace"),
     ("status.failureReason", "Moved to status.deprecated.v1beta1.failureReason",
      "Update status handling code"),
     ("status.failureMessage", "Moved to status.deprecated.v1beta1.failureMessage",
      "Update status handling code")]),
   ("Machine",
    [("spec.nodeDeletionTimeout", "Renamed to spec.deletion.nodeDeletionTimeoutSeconds",
      "Move to spec.deletion.nodeDeletionTimeoutSeconds (as int32)"),
     ("spec.nodeDrainTimeout", "Renamed to spec.deletion.nodeDrainTimeoutSeconds",
      "Move to spec.deletion.nodeDrainTimeoutSeconds (as int32)"),
     ("spec.nodeVolumeDetachTimeout",
      "Renamed to spec.deletion.nodeVolumeDetachTimeoutSeconds",
      "Move to spec.deletion.nodeVolumeDetachTimeoutSeconds (as int32)")]),
   ("MachineDeployment",
    [("spec.progressDeadlineSeconds", "Deprecated since v1.9, removed in v1beta2",
      "Remove this field"),
     ("spec.revisionHistoryLimit",
      "Removed, controller now cleans up all MachineSets without replicas",
      "Remove this field"),
     ("spec.strategy.rollingUpdate.deletePolicy", "Renamed to spec.deletion.order",
      "Move to spec.deletion.order"),
     ("spec.machineNamingStrategy", "Renamed to spec.machineNaming",
      "Rename to spec.machineNaming")]),
   ("MachineSet",
    [("spec.deletePolicy", "Renamed to spec.deletion.order",
      "Move to spec.deletion.order"),
     ("spec.machineNamingStrategy", "Renamed to spec.machineNaming",
      "Rename to spec.machineNaming")]),
   ("KubeadmControlPlane",
    [("spec.kubeadmConfigSpec.clusterConfiguration.clusterName",
      "Inferred from top level, removed to avoid confusion",
      "Remove this field")])]

/-- `OBJECT_REF_FIELDS` of `migration_checker.py`. -/
def OBJECT_REF_FIELDS : List String :=
  ["spec.infrastructureRef", "spec.controlPlaneRef", "spec.bootstrap.configRef",
   "spec.template.spec.infrastructureRef", "spec.template.spec.bootstrap.configRef"]

/-- `migration_checker.check_deprecated_fields`: for a document whose `kind`
is in the table, one `"warning"` issue per table entry whose path
`get_nested`-resolves to a non-`None` value. -/
def checkDeprecatedFields (doc : Json) (filePath : String) :
    Except String (List MigrationIssue) := do
  let kindJ ← pyGet doc "kind" (Json.str "")
  match kindJ with
  | .arr _ => .error "TypeError: unhashable"
  | .obj _ => .error "TypeError: unhashable"
  | .str k =>
    match DEPRECATED_FIELDS_MIG.lookup k with
    | none => .ok []
    | some fields =>
      .ok (fields.filterMap (fun e =>
        if (getNestedPath doc e.1).isNull then none
        else some ⟨filePath, e.1, e.2.1, e.2.2, "warning"⟩))
  | _ => .ok []

/-- `migration_checker.check_api_version`. -/
def checkApiVersion (doc : Json) (filePath : String) :
    Except String (List MigrationIssue) := do
  let av ← pyGet doc "apiVersion" (Json.str "")
  if ← pyIn "v1beta1" av then
    pure [⟨filePath, "apiVersion", "v1beta1 is deprecated, will be removed in August 2026",
          "Migrate to v1beta2 API version", "warning"⟩]
  else if ← pyIn "v1alpha" av then
    pure [⟨filePath, "apiVersion", "v1alpha versions are deprecated",
          "Migrate to v1beta2 API version", "warning"⟩]
  else
    pure []

/-- `migration_checker.check_object_references` (pure: it only uses
`get_nested` and membership on values already known to be dicts). -/
def checkObjectReferences (doc : Json) (filePath : String) : List MigrationIssue :=
  OBJECT_REF_FIELDS.flatMap (fun refPath =>
    match getNestedPath doc refPath with
    | .obj m =>
      if (Json.obj m |> truthy) then
        (if (m.any (fun p => p.1 == "apiVersion")) && !(m.any (fun p => p.1 == "apiGroup"))
         then [⟨filePath, refPath ++ ".apiVersion",
               "v1beta2 uses apiGroup instead of apiVersion in object references",
               "Replace apiVersion with apiGroup (e.g., 'infrastructure.cluster.x-k8s.io')",
               "info"⟩]
         else []) ++
        (if m.any (fun p => p.1 == "namespace")
         then [⟨filePath, refPath ++ ".namespace",
               "namespace field removed from object references in v1beta2",
               "Remove namespace field from object reference", "warning"⟩]
         else [])
      else []
    | _ => [])

/-- The `duration_fields` table of `migration_checker.check_duration_fields`. -/
def DURATION_FIELDS : List (String × String) :=
  [("spec.nodeDeletionTimeout", "spec.deletion.nodeDeletionTimeoutSeconds"),
   ("spec.nodeDrainTimeout", "spec.deletion.nodeDrainTimeoutSeconds"),
   ("spec.nodeVolumeDetachTimeout", "spec.deletion.nodeVolumeDetachTimeoutSeconds"),
   ("spec.template.spec.nodeDeletionTimeout",
    "spec.template.spec.deletion.nodeDeletionTimeoutSeconds"),
   ("spec.topology.controlPlane.nodeDeletionTimeout",
    "spec.topology.controlPlane.deletion.nodeDeletionTimeoutSeconds")]

/-- `migration_checker.check_duration_fields`. -/
def checkDurationFields (doc : Json) (filePath : String) : List MigrationIssue :=
  DURATION_FIELDS.flatMap (fun e =>
    match getNestedPath doc e.1 with
    | .null => []
    | .str s =>
      if s.data.any Char.isAlpha then
        [⟨filePath, e.1, "Duration fields changed from string to int32 seconds",
          "Convert to integer seconds and rename to " ++ e.2, "warning"⟩]
      else []
    | _ => [])

/-- `migration_checker.analyze_document`: the four checks in order. -/
def analyzeDocument (doc : Json) (filePath : String) :
    Except String (List MigrationIssue) := do
  let a ← checkApiVersion doc filePath
  let b ← checkDeprecatedFields doc filePath
  pure (a ++ b ++ checkObjectReferences doc filePath ++ checkDurationFields doc filePath)

/-- Outcome of one `kubectl get <type> -o json` invocation inside
`analyze_live_resources` (the external-process boundary). -/
inductive FetchOutcome where
  | exitNonzero : FetchOutcome
  | timeout : FetchOutcome
  | badJson : FetchOutcome
  | ok (data : Json) : FetchOutcome

/-- Per-item body of the `analyze_live_resources` loop: extract the resource
path and analyze the item. -/
def perItem (resourceType : String) (item : Json) :
    Except String (List MigrationIssue) := do
  let md ← pyGet item "metadata" (Json.obj [])
  let nameJ ← pyGet md "name" (Json.str "unknown")
  let nsJ ← pyGet md "namespace" (Json.str "default")
  let name ← pyStrE nameJ
  let ns ← pyStrE nsJ
  analyzeDocument item (resourceType ++ "/" ++ ns ++ "/" ++ name)

/-- The item loop of `analyze_live_resources`: issues of earlier items are
kept (they were already `extend`ed) when a later item raises; the raised
exception is caught by the surrounding `except` and the loop for this
resource type stops. -/
def itemLoop (resourceType : String) : List Json → List MigrationIssue →
    List MigrationIssue
  | [], acc => acc
  | item :: rest, acc =>
    match perItem resourceType item with
    | .ok issues => itemLoop resourceType rest (acc ++ issues)
    | .error _ => acc

/-- One resource type of `analyze_live_resources`: a failed or unparseable
command contributes no issues (the `continue` / `except` branches); a parsed
payload contributes the issues of its `items`. -/
def liveIssuesForType (resourceType : String) (outcome : FetchOutcome) :
    List MigrationIssue :=
  match outcome with
  | .exitNonzero => []
  | .timeout => []
  | .badJson => []
  | .ok data =>
    match data with
    | .obj m =>
      match (m.lookup "items").getD (Json.arr []) with
      | .arr items => itemLoop resourceType items []
      | _ => []
    | _ => []

/-- `migration_checker.analyze_live_resources`: nothing when `kubectl` is
missing; otherwise every resource type is processed in order, each through
`liveIssuesForType`. -/
def analyzeLiveResources (kubectlFound : Bool)
    (fetches : List (String × FetchOutcome)) : List MigrationIssue :=
  if kubectlFound then
    (fetches.map (fun f => liveIssuesForType f.1 f.2)).flatten
  else []

/-- The exit-code computation of `migration_checker.main` (lines 457-459):
1 iff any warning-severity issue exists. -/
def migrationExit (allIssues : List MigrationIssue) : Nat :=
  let warnings := allIssues.filter (fun i => i.severity == "warning")
  if warnings.isEmpty then 0 else 1

/-! ## `audit_security.py` -/

/-- `audit_security.Finding`. -/
structure Finding where
  severity : String
  category : String
  resource : String
  message : String
  recommendation : String
deriving DecidableEq, Repr

/-- `audit_security.AuditReport`: a findings list; the counts below are the
`high_count` / `medium_count` / `low_count` properties, recomputed from the
list on each access. -/
structure AuditReport where
  cluster_name : String
  findings : List Finding

/-- `AuditReport.high_count`. -/
def AuditReport.high_count (r : AuditReport) : Nat :=
  r.findings.countP (fun f => f.severity == "high")

/-- `AuditReport.medium_count`. -/
def AuditReport.medium_count (r : AuditReport) : Nat :=
  r.findings.countP (fun f => f.severity == "medium")

/-- `AuditReport.low_count`. -/
def AuditReport.low_count (r : AuditReport) : Nat :=
  r.findings.countP (fun f => f.severity == "low")

/-- Outcome of the `kubectl` invocation inside
`audit_security.run_kubectl_json`. -/
inductive AuditFetch where
  | toolMissing : AuditFetch
  | exitNonzero : AuditFetch
  | timeout : AuditFetch
  | badJson : AuditFetch
  | parsed (data : Json) : AuditFetch

/-- `audit_security.run_kubectl_json`: `[]` when the tool is missing, the
command fails, times out or its output is not JSON; otherwise `items`, with
the single-object fallback for non-List payloads. -/
def runKubectlJson (outcome : AuditFetch) : Except String Json :=
  match outcome with
  | .toolMissing => .ok (Json.arr [])
  | .exitNonzero => .ok (Json.arr [])
  | .timeout => .ok (Json.arr [])
  | .badJson => .ok (Json.arr [])
  | .parsed data => do
    let items ← pyGet data "items" (Json.arr [])
    if !truthy items then
      if ← pyIn "kind" data then
        let kindV ← pyGet data "kind" (Json.str "")
        if !(← pyIn "List" kindV) then pure (Json.arr [data]) else pure items
      else pure items
    else pure items

/-- The `Cluster/{namespace}/{name}` resource label shared by the per-cluster
checks of `audit_security.py`. -/
def resourceOf (cluster : Json) : Except String String := do
  let md ← pyGet cluster "metadata" (Json.obj [])
  let nameJ ← pyGet md "name" (Json.str "unknown")
  let nsJ ← pyGet md "namespace" (Json.str "default")
  let name ← pyStrE nameJ
  let ns ← pyStrE nsJ
  pure ("Cluster/" ++ ns ++ "/" ++ name)

/-- The lazy `any(var.get("name") in [...] for var in variables)` of
`audit_security.check_network_security`. -/
def anyCniVar : List Json → Except String Bool
  | [] => .ok false
  | var :: rest => do
    let n ← pyGet var "name" Json.null
    match n with
    | .str s =>
      if s == "cni" || s == "networkPlugin" || s == "calico" || s == "cilium" then
        pure true
      else anyCniVar rest
    | _ => anyCniVar rest

/-- `audit_security.check_network_security` (the findings it appends to the
report, in order). -/
def checkNetworkSecurity (cluster : Json) : Except String (List Finding) := do
  let res ← resourceOf cluster
  let spec ← pyGet cluster "spec" (Json.obj [])
  let network ← pyGet spec "clusterNetwork" (Json.obj [])
  let first := if truthy network then [] else
    [⟨"info", "Network", res, "No explicit clusterNetwork configuration",
      "Define clusterNetwork with appropriate CIDR ranges"⟩]
  let topology ← pyGet spec "topology" (Json.obj [])
  let varsJ ← pyGet topology "variables" (Json.arr [])
  let vars ← asList varsJ
  let cniConfigured ← anyCniVar vars
  let second := if cniConfigured then [] else
    [⟨"info", "Network", res, "CNI configuration not found in cluster variables",
      "Ensure CNI plugin is configured (calico, cilium, etc.)"⟩]
  pure (first ++ second)

/-- The `spec.topology.controlPlane` mapping of
`audit_security.check_replicas`: every step via `.get` with a `{}` default. -/
def cpOf (cluster : Json) : Except String Json := do
  let spec ← pyGet cluster "spec" (Json.obj [])
  let topology ← pyGet spec "topology" (Json.obj [])
  pyGet topology "controlPlane" (Json.obj [])

/-- The control-plane replicas value of `check_replicas`:
`cp.get("replicas", 1)`, coerced as Python's `<` comparison does. -/
def replicasOf (cluster : Json) : Except String Int := do
  let cp ← cpOf cluster
  let repJ ← pyGet cp "replicas" (Json.int 1)
  asInt repJ

/-- The findings `check_replicas` appends for replica count `n`: a below-3
finding (medium iff `n == 1`, low otherwise) and an even-count finding. -/
def replicaFindings (res : String) (n : Int) : List Finding :=
  (if n < 3 then
    [⟨if n == 1 then "medium" else "low", "Availability", res,
      "Control plane has " ++ toString n ++ " replica(s) (recommend 3 for HA)",
      "Use 3 control plane replicas for production HA"⟩]
   else []) ++
  (if n % 2 == 0 then
    [⟨"low", "Availability", res,
      "Control plane has even number of replicas (" ++ toString n ++ ")",
      "Use odd number of replicas for proper etcd quorum"⟩]
   else [])

/-- `audit_security.check_replicas` (the findings it appends, in order). -/
def checkReplicas (cluster : Json) : Except String (List Finding) := do
  let res ← resourceOf cluster
  let n ← replicasOf cluster
  pure (replicaFindings res n)

/-- The stored `replicas` value (no default): `some v` only when
`spec.topology.controlPlane.replicas` is explicitly set in the document. -/
def storedReplicas (cluster : Json) : Option Json := do
  let spec ← cluster.lookup "spec"
  let topology ← spec.lookup "topology"
  let cp ← topology.lookup "controlPlane"
  cp.lookup "replicas"

/-! ## `check_provider_contract.py` -/

/-- `check_provider_contract.ContractViolation`. -/
structure ContractViolation where
  severity : String
  category : String
  crd : String
  message : String
  requirement : String
deriving DecidableEq, Repr

/-- `check_provider_contract.ContractReport` (the fields the claims use). -/
structure ContractReport where
  provider : String
  provider_type : String
  violations : List ContractViolation

/-- `ContractReport.error_count`. -/
def ContractReport.error_count (r : ContractReport) : Nat :=
  r.violations.countP (fun v => v.severity == "error")

/-- `ContractReport.is_compliant`. -/
def ContractReport.is_compliant (r : ContractReport) : Bool :=
  r.error_count == 0

/-- `INFRASTRUCTURE_CLUSTER_CONTRACT.required_spec_fields`. -/
def INFRA_CLUSTER_REQUIRED_SPEC : List String := ["controlPlaneEndpoint"]

/-- `INFRASTRUCTURE_CLUSTER_CONTRACT.required_status_fields`. -/
def INFRA_CLUSTER_REQUIRED_STATUS : List String := ["ready"]

/-- The served-version loop of `check_provider_contract.get_crd_schema`:
first version with a truthy `served` wins. -/
def firstServedSchema : List Json → Except String Json
  | [] => .ok (Json.obj [])
  | v :: rest => do
    let served ← pyGet v "served" Json.null
    if truthy served then do
      let schema ← pyGet v "schema" (Json.obj [])
      pyGet schema "openAPIV3Schema" (Json.obj [])
    else firstServedSchema rest

/-- `check_provider_contract.get_crd_schema`. -/
def getCrdSchema (crd : Json) : Except String Json := do
  let spec ← pyGet crd "spec" (Json.obj [])
  let versionsJ ← pyGet spec "versions" (Json.arr [])
  let versions ← asList versionsJ
  firstServedSchema versions

/-- The navigation loop of `check_provider_contract.check_schema_fields`:
descend through `properties`; `none` models the early `return
required_fields` when the path is not found. -/
def navigateSchema : Json → List String → Except String (Option Json)
  | current, [] => .ok (some current)
  | current, part :: rest =>
    if part == "" then navigateSchema current rest
    else do
      let properties ← pyGet current "properties" (Json.obj [])
      if ← pyIn part properties then do
        let nxt ← pyIndex properties part
        navigateSchema nxt rest
      else .ok none

/-- The missing-field filter of `check_schema_fields`: a field is missing
when the head of its dotted name is not a key of `properties`. -/
def filterMissing (properties : Json) : List String → Except String (List String)
  | [] => .ok []
  | f :: rest => do
    let present ← pyIn ((splitDots f).headD "") properties
    let tail ← filterMissing properties rest
    pure (if present then tail else f :: tail)

/-- `check_provider_contract.check_schema_fields`. -/
def checkSchemaFields (schema : Json) (requiredFields : List String)
    (path : String) : Except String (List String) := do
  match ← navigateSchema schema (splitDots path) with
  | none => pure requiredFields
  | some current => do
    let properties ← pyGet current "properties" (Json.obj [])
    filterMissing properties requiredFields

/-- `check_provider_contract.check_infrastructure_cluster` (the violations it
adds, in order). -/
def checkInfrastructureCluster (crd : Json) :
    Except String (List ContractViolation) := do
  let md ← pyGet crd "metadata" (Json.obj [])
  let nameJ ← pyGet md "name" (Json.str "unknown")
  let crdName ← pyStrE nameJ
  let schema ← getCrdSchema crd
  if !truthy schema then
    pure [⟨"error", "Schema", crdName, "No OpenAPI schema found in CRD", ""⟩]
  else do
    let missingSpec ← checkSchemaFields schema INFRA_CLUSTER_REQUIRED_SPEC "spec"
    let specViolations := missingSpec.map (fun f =>
      (⟨"error", "Spec", crdName, "Missing required spec field: " ++ f,
        "Contract requires spec." ++ f⟩ : ContractViolation))
    let missingStatus ← checkSchemaFields schema INFRA_CLUSTER_REQUIRED_STATUS "status"
    let statusViolations := missingStatus.map (fun f =>
      (⟨"error", "Status", crdName, "Missing required status field: " ++ f,
        "Contract requires status." ++ f⟩ : ContractViolation))
    let props ← pyGet schema "properties" (Json.obj [])
    let statusNode ← pyGet props "status" (Json.obj [])
    let statusProps ← pyGet statusNode "properties" (Json.obj [])
    let hasConditions ← pyIn "conditions" statusProps
    let condViolations := if hasConditions then [] else
      [(⟨"warning", "Conditions", crdName, "No conditions field in status",
        "Conditions recommended for observability"⟩ : ContractViolation)]
    pure (specViolations ++ statusViolations ++ condViolations)

/-- Claim-side condition: the schema has a `ready` key under
`status.properties` (the OpenAPI nesting `properties.status.properties.ready`). -/
def readyUnderStatusProps (schema : Json) : Bool :=
  (do
    let props ← schema.lookup "properties"
    let statusNode ← props.lookup "status"
    let statusProps ← statusNode.lookup "properties"
    statusProps.lookup "ready").isSome

/-! ## `lint_cluster_templates.py` -/

/-- `lint_cluster_templates.Severity`. -/
inductive Severity where
  | error : Severity
  | warning : Severity
  | info : Severity
deriving DecidableEq, Repr

/-- `lint_cluster_templates.LintIssue`. -/
structure LintIssue where
  severity : Severity
  message : String
  file : String
  line : Option Nat
  suggestion : Option String
deriving DecidableEq, Repr

/-- `lint_cluster_templates.LintResult`. -/
structure LintResult where
  file : String
  issues : List LintIssue

/-- `LintResult.has_errors`. -/
def LintResult.has_errors (r : LintResult) : Bool :=
  r.issues.any (fun i => i.severity = Severity.error)

/-- `LintResult.has_warnings`. -/
def LintResult.has_warnings (r : LintResult) : Bool :=
  r.issues.any (fun i => i.severity = Severity.warning)

/-- `CAPI_API_VERSIONS`: version, deprecated flag, optional replacement. -/
def CAPI_API_VERSIONS : List (String × (Bool × Option String)) :=
  [("cluster.x-k8s.io/v1alpha3", (true, some "v1beta1")),
   ("cluster.x-k8s.io/v1alpha4", (true, some "v1beta1")),
   ("cluster.x-k8s.io/v1beta1", (false, none))]

/-- `CAPI_KINDS` (the `required_spec` lists; the `optional_spec` entry of the
table is never read by the code). -/
def CAPI_KINDS : List (String × List String) :=
  [("Cluster", ["infrastructureRef", "controlPlaneRef"]),
   ("Machine", ["clusterName", "bootstrap", "infrastructureRef"]),
   ("MachineDeployment", ["clusterName", "template"]),
   ("MachineSet", ["clusterName", "template"]),
   ("ClusterClass", ["infrastructure", "controlPlane"]),
   ("MachineHealthCheck", ["clusterName", "selector", "unhealthyConditions"]),
   ("MachinePool", ["clusterName", "template"])]

/-- The `DEPRECATED_FIELDS` table of `lint_cluster_templates.py`:
kind to (field path, since, message). -/
def LINT_DEPRECATED_FIELDS : List (String × List (String × String × String)) :=
  [("Cluster",
    [("spec.paused", "v1.4.0",
      "Use spec.topology.controlPlane/workers for managed clusters")]),
   ("Machine",
    [("spec.version", "v1.5.0",
      "Version is now inherited from control plane or topology")])]

/-- The message of a missing-required-spec-field lint issue. -/
def lintReqMsg (kind requiredField : String) : String :=
  "Missing required spec field for " ++ kind ++ ": " ++ requiredField

/-- The topology carve-out test of the `lint_document` required-field loop
(lines 270-272): a `Cluster` whose spec contains `topology` skips the
`infrastructureRef` / `controlPlaneRef` requirements. -/
def lintSkipField (kind : String) (spec : Json) (f : String) : Except String Bool :=
  if kind == "Cluster" then do
    let topo ← pyIn "topology" spec
    pure (topo && (f == "infrastructureRef" || f == "controlPlaneRef"))
  else pure false

/-- The required-field loop of `lint_document` (lines 268-282). -/
def lintRequiredIssues (kind : String) (spec : Json) (filePath : String)
    (startLine : Nat) : List String → Except String (List LintIssue)
  | [] => .ok []
  | f :: rest => do
    let skip ← lintSkipField kind spec f
    if skip then lintRequiredIssues kind spec filePath startLine rest
    else do
      let present ← pyIn f spec
      let tail ← lintRequiredIssues kind spec filePath startLine rest
      pure ((if present then [] else
        [⟨Severity.error, lintReqMsg kind f, filePath, some startLine, none⟩]) ++ tail)

/-- The deprecated-field loop of `lint_document` (lines 285-307). -/
def lintDeprecatedIssues (entries : List (String × String × String)) (doc : Json)
    (filePath : String) (startLine : Nat) : List LintIssue :=
  entries.filterMap (fun e =>
    if deprecatedFieldFound doc (splitDots e.1) then
      some ⟨Severity.warning,
            "Deprecated field '" ++ e.1 ++ "' (since " ++ e.2.1 ++ ")",
            filePath, some startLine, some e.2.2⟩
    else none)

/-- Is this Json value the given string? (Python `x == "s"`.) -/
def isStrEq (j : Json) (s : String) : Bool :=
  match j with
  | .str t => t == s
  | _ => false

/-- Table lookup for a Python `x in TABLE` over a string-keyed dict: a
non-string hashable value is simply not a key; lists and dicts are
unhashable and raise. -/
def tableLookup (j : Json) (table : List (String × α)) : Except String (Option α) :=
  match j with
  | .arr _ => .error "TypeError: unhashable"
  | .obj _ => .error "TypeError: unhashable"
  | .str k => .ok (table.lookup k)
  | _ => .ok none

/-- The `metadata` / `metadata.name` checks of `lint_document`
(lines 227-244). -/
def metadataNameIssues (doc : Json) (filePath : String) (startLine : Nat) :
    Except String (List LintIssue) := do
  let hasMetadata ← pyIn "metadata" doc
  if hasMetadata then do
    let md ← pyGet doc "metadata" (Json.obj [])
    let hasName ← pyIn "name" md
    pure (if hasName then ([] : List LintIssue) else
      [⟨Severity.error, "Missing required field: metadata.name", filePath,
        some startLine, none⟩])
  else
    pure [⟨Severity.error, "Missing required field: metadata", filePath,
          some startLine, none⟩]

/-- The deprecated-API-version check of `lint_document` (lines 247-260). -/
def apiVersionDeprecationIssues (av : Json) (filePath : String) (startLine : Nat) :
    Except String (List LintIssue) := do
  match ← tableLookup av CAPI_API_VERSIONS with
  | some info =>
    if info.1 then do
      let avStr ← pyStrE av
      let replacement := info.2.getD "v1beta1"
      pure [⟨Severity.warning, "Deprecated API version: " ++ avStr, filePath,
            some startLine, some ("Use cluster.x-k8s.io/" ++ replacement)⟩]
    else pure []
  | none => pure []

/-- The kind-specific required-field block of `lint_document`
(lines 263-282). -/
def kindRequiredSpecIssues (kindJ : Json) (doc : Json) (filePath : String)
    (startLine : Nat) : Except String (List LintIssue) := do
  match ← tableLookup kindJ CAPI_KINDS with
  | some requiredSpec => do
    let k ← pyStrE kindJ
    let spec ← pyGet doc "spec" (Json.obj [])
    lintRequiredIssues k spec filePath startLine requiredSpec
  | none => pure []

/-- The deprecated-field block of `lint_document` (lines 285-307). -/
def kindDeprecatedFieldIssues (kindJ : Json) (doc : Json) (filePath : String)
    (startLine : Nat) : Except String (List LintIssue) := do
  match ← tableLookup kindJ LINT_DEPRECATED_FIELDS with
  | some entries => pure (lintDeprecatedIssues entries doc filePath startLine)
  | none => pure []

/-- `lint_cluster_templates.lint_document`. -/
def lintDocument (doc : Json) (filePath : String) (startLine : Nat) :
    Except String (List LintIssue) := do
  let hasApiVersion ← pyIn "apiVersion" doc
  let a1 : List LintIssue := if hasApiVersion then [] else
    [⟨Severity.error, "Missing required field: apiVersion", filePath, some startLine, none⟩]
  let hasKind ← pyIn "kind" doc
  let a2 : List LintIssue := if hasKind then [] else
    [⟨Severity.error, "Missing required field: kind", filePath, some startLine, none⟩]
  let a3 ← metadataNameIssues doc filePath startLine
  let av ← pyGet doc "apiVersion" (Json.str "")
  let b ← apiVersionDeprecationIssues av filePath startLine
  let kindJ ← pyGet doc "kind" (Json.str "")
  let c ← kindRequiredSpecIssues kindJ doc filePath startLine
  let d ← kindDeprecatedFieldIssues kindJ doc filePath startLine
  pure (a1 ++ a2 ++ a3 ++ b ++ c ++ d)

/-- The exit-code computation of `lint_cluster_templates.main`
(lines 541-549). -/
def lintExit (results : List LintResult) (strict : Bool) : Nat :=
  if results.any (fun r => r.has_errors) then 1
  else if strict && results.any (fun r => r.has_warnings) then 1
  else 0

/-! ## `validate_manifests.py` -/

/-- `validate_manifests.ValidationError` (severity defaults to `"error"`,
written explicitly at each call site). -/
structure ValidationError where
  path : String
  message : String
  severity : String
deriving DecidableEq, Repr

/-- `validate_manifests.REQUIRED_FIELDS` (each kind's `spec` list). -/
def REQUIRED_FIELDS_VALIDATE : List (String × List String) :=
  [("Cluster", ["infrastructureRef"]),
   ("Machine", ["clusterName", "bootstrap", "infrastructureRef"]),
   ("MachineDeployment", ["clusterName", "selector", "template"]),
   ("MachineSet", ["clusterName", "selector", "template"]),
   ("MachineHealthCheck", ["clusterName", "selector"]),
   ("ClusterClass", ["infrastructure", "controlPlane", "workers"]),
   ("KubeadmConfig", []),
   ("KubeadmControlPlane", ["version"])]

/-- The message of a missing-required-field validation error. -/
def validateReqMsg (f : String) : String := "Missing required field: " ++ f

/-- The required-field loop of `validate_manifests.validate_spec`
(lines 167-173). -/
def requiredIssuesV (spec : Json) : List String → Except String (List ValidationError)
  | [] => .ok []
  | f :: rest => do
    let present ← pyIn f spec
    let tail ← requiredIssuesV spec rest
    pure ((if present then [] else
      [⟨"spec." ++ f, validateReqMsg f, "error"⟩]) ++ tail)

/-- The `infrastructureRef` block of `_validate_cluster_spec` (run only when
the ref is truthy). -/
def clusterInfraRefIssues (infraRef : Json) : Except String (List ValidationError) :=
  if truthy infraRef then do
    let k ← pyGet infraRef "kind" Json.null
    let n ← pyGet infraRef "name" Json.null
    pure ((if truthy k then [] else
      [(⟨"spec.infrastructureRef.kind", "Missing kind in infrastructureRef",
        "error"⟩ : ValidationError)]) ++
      (if truthy n then [] else
      [(⟨"spec.infrastructureRef.name", "Missing name in infrastructureRef",
        "error"⟩ : ValidationError)]))
  else pure []

/-- The `controlPlaneRef` block of `_validate_cluster_spec`. -/
def clusterControlPlaneRefIssues (cpRef : Json) : Except String (List ValidationError) :=
  if truthy cpRef then do
    let k ← pyGet cpRef "kind" Json.null
    pure (if truthy k then ([] : List ValidationError) else
      [⟨"spec.controlPlaneRef.kind", "Missing kind in controlPlaneRef", "error"⟩])
  else pure []

/-- `validate_manifests._validate_cluster_spec`. -/
def validateClusterSpec (spec : Json) : Except String (List ValidationError) := do
  let infraRef ← pyGet spec "infrastructureRef" (Json.obj [])
  let part1 ← clusterInfraRefIssues infraRef
  let cpRef ← pyGet spec "controlPlaneRef" (Json.obj [])
  let part2 ← clusterControlPlaneRefIssues cpRef
  pure (part1 ++ part2)

/-- `validate_manifests._validate_machine_spec`. -/
def validateMachineSpec (spec : Json) : Except String (List ValidationError) := do
  let bootstrap ← pyGet spec "bootstrap" (Json.obj [])
  if truthy bootstrap then do
    let cfg ← pyGet bootstrap "configRef" Json.null
    let dsn ← pyGet bootstrap "dataSecretName" Json.null
    pure (if !truthy cfg && !truthy dsn then
      [⟨"spec.bootstrap", "Must have either configRef or dataSecretName", "error"⟩]
      else [])
  else pure []

/-- `validate_manifests._validate_machine_deployment_spec`. -/
def validateMachineDeploymentSpec (spec : Json) :
    Except String (List ValidationError) := do
  let template ← pyGet spec "template" (Json.obj [])
  if truthy template then do
    let templateSpec ← pyGet template "spec" (Json.obj [])
    let b ← pyGet templateSpec "bootstrap" Json.null
    let ir ← pyGet templateSpec "infrastructureRef" Json.null
    pure ((if truthy b then [] else
      [(⟨"spec.template.spec.bootstrap", "Missing bootstrap in template",
        "error"⟩ : ValidationError)]) ++
      (if truthy ir then [] else
      [(⟨"spec.template.spec.infrastructureRef", "Missing infrastructureRef in template",
        "error"⟩ : ValidationError)]))
  else pure []

/-- The `infrastructure` block of `_validate_cluster_class_spec`. -/
def classInfraIssues (infra : Json) : Except String (List ValidationError) :=
  if truthy infra then do
    let r ← pyGet infra "ref" Json.null
    pure (if truthy r then ([] : List ValidationError) else
      [⟨"spec.infrastructure.ref", "Missing ref in infrastructure", "error"⟩])
  else pure []

/-- The `controlPlane` block of `_validate_cluster_class_spec`. -/
def classControlPlaneIssues (cp : Json) : Except String (List ValidationError) :=
  if truthy cp then do
    let r ← pyGet cp "ref" Json.null
    pure (if truthy r then ([] : List ValidationError) else
      [⟨"spec.controlPlane.ref", "Missing ref in controlPlane", "error"⟩])
  else pure []

/-- `validate_manifests._validate_cluster_class_spec`. -/
def validateClusterClassSpec (spec : Json) : Except String (List ValidationError) := do
  let infra ← pyGet spec "infrastructure" (Json.obj [])
  let part1 ← classInfraIssues infra
  let cp ← pyGet spec "controlPlane" (Json.obj [])
  let part2 ← classControlPlaneIssues cp
  pure (part1 ++ part2)

/-- The `kind in REQUIRED_FIELDS` lookup of `validate_spec` (an absent kind
contributes no required fields). -/
def requiredListFor (kindJ : Json) (table : List (String × List String)) :
    Except String (List String) := do
  match ← tableLookup kindJ table with
  | some r => pure r
  | none => pure []

/-- The kind-specific dispatch chain of `validate_spec` (lines 176-183). -/
def kindSpecificIssues (kindJ : Json) (spec : Json) :
    Except String (List ValidationError) :=
  if isStrEq kindJ "Cluster" then validateClusterSpec spec
  else if isStrEq kindJ "Machine" then validateMachineSpec spec
  else if isStrEq kindJ "MachineDeployment" then validateMachineDeploymentSpec spec
  else if isStrEq kindJ "ClusterClass" then validateClusterClassSpec spec
  else pure []

/-- `validate_manifests.validate_spec`. -/
def validateSpec (doc : Json) : Except String (List ValidationError) := do
  let kindJ ← pyGet doc "kind" (Json.str "")
  let spec ← pyGet doc "spec" (Json.obj [])
  if !truthy spec then pure [⟨"spec", "Missing spec field", "error"⟩]
  else do
    let req ← requiredListFor kindJ REQUIRED_FIELDS_VALIDATE
    let reqIssues ← requiredIssuesV spec req
    let sub ← kindSpecificIssues kindJ spec
    pure (reqIssues ++ sub)

/-- The exit-code computation of `validate_manifests.main` (lines 403-407). -/
def validateExit (totalErrors totalWarnings : Nat) (strict : Bool) : Nat :=
  if totalErrors > 0 then 1
  else if strict && totalWarnings > 0 then 1
  else 0

/-! ## Supporting lemmas -/

theorem getNested_null (p : List String) : getNested Json.null p = Json.null := by
  cases p <;> rfl

theorem pathLookup_append (doc : Json) (p q : List String) :
    pathLookup doc (p ++ q) = (pathLookup doc p).bind (fun v => pathLookup v q) := by
  induction p generalizing doc with
  | nil => cases doc <;> rfl
  | cons k rest ih =>
    cases doc with
    | obj m =>
      simp only [List.cons_append, pathLookup]
      cases m.lookup k with
      | some v => exact ih v
      | none => rfl
    | null => rfl
    | bool b => rfl
    | int n => rfl
    | str s => rfl
    | arr xs => rfl

theorem deprecatedFieldFound_eq_pathLookup (doc : Json) (p : List String) :
    deprecatedFieldFound doc p = (pathLookup doc p).isSome := by
  induction p generalizing doc with
  | nil => cases doc <;> rfl
  | cons k rest ih =>
    cases doc with
    | obj m =>
      simp only [deprecatedFieldFound, pathLookup]
      cases m.lookup k with
      | some v => exact ih v
      | none => rfl
    | null => rfl
    | bool b => rfl
    | int n => rfl
    | str s => rfl
    | arr xs => rfl

theorem pathLookup_nonObj_cons (v : Json) (k : String) (rest : List String)
    (h : v.isObj = false) : pathLookup v (k :: rest) = none := by
  cases v <;> simp [Json.isObj] at h ⊢ <;> rfl

/-! ## Claim C1: absent vs present-but-falsy vs present-null -/

/-- C1, counterexample.  The claim says resolution yields the absent marker
exactly when some key on the path is missing and yields the stored value even
for a present `null`.  In `get_nested` the absent marker is Python `None`,
which IS the JSON `null` value: for the document `{"a": null}` every key of
the path `a` is present, yet resolution returns the absent marker, so a
present `null` is indistinguishable from an absent field. -/
theorem c1_present_null_counterexample :
    pathLookup (Json.obj [("a", Json.null)]) ["a"] = some Json.null ∧
    getNestedPath (Json.obj [("a", Json.null)]) "a" = Json.null :=
  ⟨rfl, rfl⟩

/-- C1, amended: resolution yields the stored value whenever every key on the
path is present and the stored value is not `null`; it yields `null` (the
absent marker) whenever some key is missing or an intermediate value is not a
mapping — but also when the stored value is itself `null`, which the marker
cannot be told apart from.  The falsy-value part of the claim stands:
resolving `status.ready` against `{"status": {"ready": false}}` yields the
stored `false`, so the spec's required-present rule does not fire there. -/
theorem c1_resolution_amended :
    (∀ doc p v, pathLookup doc p = some v → v ≠ Json.null → getNested doc p = v) ∧
    (∀ doc p, pathLookup doc p = none → getNested doc p = Json.null) ∧
    getNestedPath (Json.obj [("status", Json.obj [("ready", Json.bool false)])])
      "status.ready" = Json.bool false ∧
    requiredPresentFires (Json.obj [("status", Json.obj [("ready", Json.bool false)])])
      "status.ready" = false := by
  refine ⟨?_, ?_, rfl, rfl⟩
  · intro doc p
    induction p generalizing doc with
    | nil =>
      intro v h _
      cases doc <;> simp_all [pathLookup, getNested]
    | cons k rest ih =>
      intro v h hv
      cases doc with
      | obj m =>
        cases hm : m.lookup k with
        | some w =>
          simp only [pathLookup, hm] at h
          simpa [getNested, hm] using ih w v h hv
        | none => simp [pathLookup, hm] at h
      | null => simp [pathLookup] at h
      | bool b => simp [pathLookup] at h
      | int n => simp [pathLookup] at h
      | str s => simp [pathLookup] at h
      | arr xs => simp [pathLookup] at h
  · intro doc p
    induction p generalizing doc with
    | nil => intro h; exact absurd h (by cases doc <;> simp [pathLookup])
    | cons k rest ih =>
      intro h
      cases doc with
      | obj m =>
        cases hm : m.lookup k with
        | some w =>
          simp only [pathLookup, hm] at h
          simpa [getNested, hm] using ih w h
        | none => simp [getNested, hm, getNested_null]
      | null => exact getNested_null _
      | bool b => rfl
      | int n => rfl
      | str s => rfl
      | arr xs => rfl

/-- C1, witness: the amended theorem applied to `{"b": 0}` and the path `b` —
a present falsy value resolves to itself. -/
theorem c1_resolution_witness :
    getNested (Json.obj [("b", Json.int 0)]) ["b"] = Json.int 0 :=
  c1_resolution_amended.1 (Json.obj [("b", Json.int 0)]) ["b"] (Json.int 0) rfl
    (fun h => Json.noConfusion h)

/-! ## Claim C9: totality of resolution on malformed structure -/

/-- C9, confirmed: when an intermediate path segment resolves to a
non-mapping (a list, a scalar, or `null`), `get_nested` yields the absent
marker `None` and the deprecated-field walk of `lint_document` reports "not
found"; both are total functions — missing structure is an ordinary value,
never an exception (the `isinstance` guards in both loops). -/
theorem c9_malformed_structure_absent :
    (∀ doc pre k suf, (getNested doc pre).isObj = false →
      getNested doc (pre ++ k :: suf) = Json.null) ∧
    (∀ doc pre k suf v, pathLookup doc pre = some v → v.isObj = false →
      deprecatedFieldFound doc (pre ++ k :: suf) = false) := by
  constructor
  · intro doc pre k suf h
    rw [getNested_append doc pre (k :: suf) (by simp)]
    exact getNested_nonObj_cons _ k suf h
  · intro doc pre k suf v h hv
    rw [deprecatedFieldFound_eq_pathLookup, pathLookup_append, h]
    simp [pathLookup_nonObj_cons v k suf hv]

/-- C9, witness: both clauses at a document whose intermediate value is a
list and a scalar respectively. -/
theorem c9_malformed_structure_witness :
    getNested (Json.obj [("a", Json.arr [Json.int 1])]) (["a"] ++ "b" :: []) =
      Json.null ∧
    deprecatedFieldFound (Json.obj [("a", Json.int 5)]) (["a"] ++ "b" :: []) = false :=
  ⟨c9_malformed_structure_absent.1 (Json.obj [("a", Json.arr [Json.int 1])])
      ["a"] "b" [] rfl,
   c9_malformed_structure_absent.2 (Json.obj [("a", Json.int 5)])
      ["a"] "b" [] (Json.int 5) rfl rfl⟩

/-! ## Except helpers -/

theorem except_ok_bind {α β ε : Type} (a : α) (f : α → Except ε β) :
    (Except.ok a : Except ε α) >>= f = f a := rfl

theorem except_bind_ok_inv {α β ε : Type} {x : Except ε α} {f : α → Except ε β}
    {b : β} (h : x >>= f = .ok b) : ∃ a, x = .ok a ∧ f a = .ok b := by
  cases x with
  | ok a => exact ⟨a, rfl, h⟩
  | error e => exact Except.noConfusion h

theorem pyGet_ok_obj {j : Json} {k : String} {d v : Json}
    (h : pyGet j k d = .ok v) :
    ∃ m, j = Json.obj m ∧ v = (List.lookup k m).getD d := by
  cases j with
  | obj m =>
    refine ⟨m, rfl, ?_⟩
    simpa [pyGet] using h.symm
  | null => simp [pyGet] at h
  | bool b => simp [pyGet] at h
  | int n => simp [pyGet] at h
  | str s => simp [pyGet] at h
  | arr xs => simp [pyGet] at h

theorem asInt_ok_ge3 {v : Json} {n : Int} (h : asInt v = .ok n) (h3 : 3 ≤ n) :
    v = Json.int n := by
  cases v with
  | int m => simpa [asInt] using h
  | bool b =>
    exfalso
    cases b <;> simp [asInt] at h <;> omega
  | null => simp [asInt] at h
  | str s => simp [asInt] at h
  | arr xs => simp [asInt] at h
  | obj m => simp [asInt] at h

/-- The Option chain of `storedReplicas` on a mapping, unrolled. -/
theorem storedReplicas_eq (dm : List (String × Json)) :
    storedReplicas (Json.obj dm) =
      (List.lookup "spec" dm).bind (fun s => (s.lookup "topology").bind
        (fun t => (t.lookup "controlPlane").bind (fun c => c.lookup "replicas"))) :=
  rfl

/-! ## Claim C3: the replica-count check -/

/-- C3, confirmed: for a Cluster whose resolved control-plane replica count
is 1, `check_replicas` appends exactly one medium Availability finding
recommending 3 replicas; for 2, a low below-3 finding plus a low even-count
finding (no medium or high); for 3, nothing. -/
theorem c3_replica_check (doc : Json) (res : String) (n : Int)
    (hres : resourceOf doc = .ok res) (hn : replicasOf doc = .ok n) :
    (n = 1 → checkReplicas doc = .ok
      [⟨"medium", "Availability", res,
        "Control plane has 1 replica(s) (recommend 3 for HA)",
        "Use 3 control plane replicas for production HA"⟩]) ∧
    (n = 2 → checkReplicas doc = .ok
      [⟨"low", "Availability", res,
        "Control plane has 2 replica(s) (recommend 3 for HA)",
        "Use 3 control plane replicas for production HA"⟩,
       ⟨"low", "Availability", res,
        "Control plane has even number of replicas (2)",
        "Use odd number of replicas for proper etcd quorum"⟩]) ∧
    (n = 3 → checkReplicas doc = .ok []) := by
  have hck : checkReplicas doc = .ok (replicaFindings res n) := by
    unfold checkReplicas
    rw [hres, except_ok_bind, hn, except_ok_bind]
    rfl
  refine ⟨fun h => ?_, fun h => ?_, fun h => ?_⟩ <;> subst h <;> rw [hck] <;> rfl

/-- C3, witness: the theorem at a Cluster document with
`spec.topology.controlPlane.replicas = 2`. -/
theorem c3_replica_check_witness :
    checkReplicas (Json.obj [("spec", Json.obj [("topology", Json.obj
        [("controlPlane", Json.obj [("replicas", Json.int 2)])])])]) = .ok
      [⟨"low", "Availability", "Cluster/default/unknown",
        "Control plane has 2 replica(s) (recommend 3 for HA)",
        "Use 3 control plane replicas for production HA"⟩,
       ⟨"low", "Availability", "Cluster/default/unknown",
        "Control plane has even number of replicas (2)",
        "Use odd number of replicas for proper etcd quorum"⟩] :=
  (c3_replica_check (Json.obj [("spec", Json.obj [("topology", Json.obj
      [("controlPlane", Json.obj [("replicas", Json.int 2)])])])])
    "Cluster/default/unknown" 2 rfl rfl).2.1 rfl

/-! ## Claim C10: the implicit replicas default -/

/-- C10, confirmed: when `spec.topology.controlPlane.replicas` is not set
(at whatever level the chain stops, each `.get` defaulting to `{}`), the
count defaults to 1, so `check_replicas` appends exactly one medium
Availability finding and no even-count finding; and a run that appends no
replica findings is only possible when `replicas` is explicitly stored as an
odd integer of at least 3. -/
theorem c10_missing_replicas_default :
    (∀ doc res m, resourceOf doc = .ok res → cpOf doc = .ok (Json.obj m) →
      List.lookup "replicas" m = none →
      checkReplicas doc = .ok
        [⟨"medium", "Availability", res,
          "Control plane has 1 replica(s) (recommend 3 for HA)",
          "Use 3 control plane replicas for production HA"⟩]) ∧
    (∀ doc l, checkReplicas doc = .ok l → l = [] →
      ∃ n : Int, storedReplicas doc = some (Json.int n) ∧ 3 ≤ n ∧ n % 2 = 1) := by
  constructor
  · intro doc res m hres hcp hlk
    have h1 : replicasOf doc = .ok 1 := by
      unfold replicasOf
      rw [hcp, except_ok_bind]
      simp [pyGet, hlk, except_ok_bind, asInt]
    unfold checkReplicas
    rw [hres, except_ok_bind, h1, except_ok_bind]
    rfl
  · intro doc l hck hl
    subst hl
    unfold checkReplicas at hck
    obtain ⟨res, hres, hck2⟩ := except_bind_ok_inv hck
    obtain ⟨n, hn, hpure⟩ := except_bind_ok_inv hck2
    have hempty : replicaFindings res n = [] := by
      have h2 : Except.ok (replicaFindings res n) =
          (Except.ok [] : Except String (List Finding)) := hpure
      simpa using h2
    have hcond : ¬ n < 3 ∧ ¬ n % 2 = 0 := by
      by_contra hc
      rw [replicaFindings] at hempty
      rcases Classical.em (n < 3) with h3 | h3
      · rw [if_pos h3] at hempty
        simp at hempty
      · rw [if_neg h3] at hempty
        rcases Classical.em (n % 2 = 0) with he | he
        · rw [if_pos (by simpa using he)] at hempty
          simp at hempty
        · exact hc ⟨h3, he⟩
    refine ⟨n, ?_, by omega, by omega⟩
    unfold replicasOf at hn
    obtain ⟨cp, hcp, hn2⟩ := except_bind_ok_inv hn
    obtain ⟨repJ, hrep, hAs⟩ := except_bind_ok_inv hn2
    obtain ⟨m, rfl, hrepv⟩ := pyGet_ok_obj hrep
    have hrepint : repJ = Json.int n := asInt_ok_ge3 hAs (by omega)
    cases hlk : List.lookup "replicas" m with
    | none =>
      exfalso
      rw [hlk] at hrepv
      have h1 : Json.int n = Json.int 1 := by
        rw [← hrepint]
        exact hrepv
      have h2 : n = 1 := by injection h1
      omega
    | some v =>
      rw [hlk] at hrepv
      have hv : v = Json.int n := by
        rw [← hrepint]
        exact hrepv.symm
      unfold cpOf at hcp
      obtain ⟨spec, hspec, hcp2⟩ := except_bind_ok_inv hcp
      obtain ⟨topo, htopo, hcp3⟩ := except_bind_ok_inv hcp2
      obtain ⟨dm, rfl, hspecv⟩ := pyGet_ok_obj hspec
      obtain ⟨sm, hspecobj, htopov⟩ := pyGet_ok_obj htopo
      obtain ⟨tm, htopoobj, hcpv⟩ := pyGet_ok_obj hcp3
      cases hs : List.lookup "spec" dm with
      | none =>
        exfalso
        have h1 : Json.obj sm = Json.obj [] := by rw [← hspecobj, hspecv, hs]; rfl
        have hsm : sm = [] := by injection h1
        have h2 : Json.obj tm = Json.obj [] := by rw [← htopoobj, htopov, hsm]; rfl
        have htm : tm = [] := by injection h2
        have h3 : Json.obj m = Json.obj [] := by rw [hcpv, htm]; rfl
        have hm : m = [] := by injection h3
        rw [hm] at hlk
        exact Option.noConfusion hlk
      | some s =>
        have hs1 : s = Json.obj sm := by rw [← hspecobj, hspecv, hs]; rfl
        cases ht : List.lookup "topology" sm with
        | none =>
          exfalso
          have h2 : Json.obj tm = Json.obj [] := by rw [← htopoobj, htopov, ht]; rfl
          have htm : tm = [] := by injection h2
          have h3 : Json.obj m = Json.obj [] := by rw [hcpv, htm]; rfl
          have hm : m = [] := by injection h3
          rw [hm] at hlk
          exact Option.noConfusion hlk
        | some t =>
          have ht1 : t = Json.obj tm := by rw [← htopoobj, htopov, ht]; rfl
          cases hc : List.lookup "controlPlane" tm with
          | none =>
            exfalso
            have h3 : Json.obj m = Json.obj [] := by rw [hcpv, hc]; rfl
            have hm : m = [] := by injection h3
            rw [hm] at hlk
            exact Option.noConfusion hlk
          | some c =>
            have hc1 : c = Json.obj m := by rw [hcpv, hc]; rfl
            rw [storedReplicas_eq]
            simp [hs, hs1, Json.lookup, ht, ht1, hc, hc1, hlk, hv]

/-- C10, witness: the first clause at the empty Cluster document (no
`spec` at all, so every level defaults and `replicas` falls back to 1). -/
theorem c10_missing_replicas_witness :
    checkReplicas (Json.obj []) = .ok
      [⟨"medium", "Availability", "Cluster/default/unknown",
        "Control plane has 1 replica(s) (recommend 3 for HA)",
        "Use 3 control plane replicas for production HA"⟩] :=
  c10_missing_replicas_default.1 (Json.obj []) "Cluster/default/unknown" [] rfl rfl rfl

/-! ## Claim C5: the deprecated rolloutAfter rule -/

/-- C5, counterexample.  The claim says the check fires exactly when
`spec.topology.rolloutAfter` is present in the document.  A document whose
`rolloutAfter` key is present with value `null` yields zero findings, because
`check_deprecated_fields` tests `get_nested(...) is not None` and a stored
`null` resolves to `None`. -/
theorem c5_null_rollout_counterexample :
    pathLookup (Json.obj [("kind", Json.str "Cluster"),
        ("spec", Json.obj [("topology", Json.obj [("rolloutAfter", Json.null)])])])
      ["spec", "topology", "rolloutAfter"] = some Json.null ∧
    checkDeprecatedFields (Json.obj [("kind", Json.str "Cluster"),
        ("spec", Json.obj [("topology", Json.obj [("rolloutAfter", Json.null)])])])
      "cluster.yaml" = .ok [] :=
  ⟨rfl, rfl⟩

/-- C5, amended: for a Cluster document, `check_deprecated_fields` emits
exactly one finding naming `spec.topology.rolloutAfter` — of warning
severity, with the migration action "Remove this field" — when that path
resolves to a non-`null` value, and zero findings for that rule otherwise;
a `rolloutAfter` key stored as `null` counts as absent. -/
theorem c5_deprecated_rollout_amended (doc : Json) (fp : String)
    (l : List MigrationIssue)
    (hk : pyGet doc "kind" (Json.str "") = .ok (Json.str "Cluster"))
    (hl : checkDeprecatedFields doc fp = .ok l) :
    l.countP (fun i => i.field == "spec.topology.rolloutAfter") =
      (if (getNestedPath doc "spec.topology.rolloutAfter").isNull then 0 else 1) ∧
    ∀ i ∈ l, i.field = "spec.topology.rolloutAfter" →
      i.severity = "warning" ∧ i.action = "Remove this field" ∧
      i.reason = "Never implemented, removed in v1beta2" := by
  have hck : checkDeprecatedFields doc fp = .ok
      (((DEPRECATED_FIELDS_MIG.lookup "Cluster").getD []).filterMap (fun e =>
        if (getNestedPath doc e.1).isNull then none
        else some ⟨fp, e.1, e.2.1, e.2.2, "warning"⟩)) := by
    unfold checkDeprecatedFields
    rw [hk, except_ok_bind]
    rfl
  have hl2 : l = ((DEPRECATED_FIELDS_MIG.lookup "Cluster").getD []).filterMap (fun e =>
      if (getNestedPath doc e.1).isNull then none
      else some ⟨fp, e.1, e.2.1, e.2.2, "warning"⟩) := by
    have h := hck.symm.trans hl
    simpa using h.symm
  subst hl2
  constructor
  · by_cases h1 : (getNestedPath doc "spec.topology.rolloutAfter").isNull <;>
    by_cases h2 : (getNestedPath doc "spec.topology.class").isNull <;>
    by_cases h3 : (getNestedPath doc "spec.topology.classNamespace").isNull <;>
    by_cases h4 : (getNestedPath doc "status.failureReason").isNull <;>
    by_cases h5 : (getNestedPath doc "status.failureMessage").isNull <;>
    simp [DEPRECATED_FIELDS_MIG, List.filterMap, List.countP, List.countP.go,
      h1, h2, h3, h4, h5]
  · intro i hi hf
    simp only [List.mem_filterMap] at hi
    obtain ⟨e, he, hfe⟩ := hi
    have he5 : e ∈ ([("spec.topology.rolloutAfter", "Never implemented, removed in v1beta2",
        "Remove this field"),
       ("spec.topology.class", "Renamed to spec.topology.classRef.name",
        "Move to spec.topology.classRef.name"),
       ("spec.topology.classNamespace", "Renamed to spec.topology.classRef.namespace",
        "Move to spec.topology.classRef.namespace"),
       ("status.failureReason", "Moved to status.deprecated.v1beta1.failureReason",
        "Update status handling code"),
       ("status.failureMessage", "Moved to status.deprecated.v1beta1.failureMessage",
        "Update status handling code")] : List (String × String × String)) := he
    fin_cases he5 <;> split at hfe <;>
      first
        | exact Option.noConfusion hfe
        | (cases Option.some.inj hfe; first
            | exact ⟨rfl, rfl, rfl⟩
            | simp at hf)

/-- C5, witness: the amended claim at a Cluster document whose
`rolloutAfter` is the string `"2024-01-01"`. -/
theorem c5_deprecated_rollout_witness :
    ([⟨"f.yaml", "spec.topology.rolloutAfter", "Never implemented, removed in v1beta2",
       "Remove this field", "warning"⟩] : List MigrationIssue).countP
        (fun i => i.field == "spec.topology.rolloutAfter") =
      (if (getNestedPath (Json.obj [("kind", Json.str "Cluster"),
          ("spec", Json.obj [("topology", Json.obj
            [("rolloutAfter", Json.str "2024-01-01")])])])
          "spec.topology.rolloutAfter").isNull then 0 else 1) :=
  (c5_deprecated_rollout_amended
    (Json.obj [("kind", Json.str "Cluster"),
      ("spec", Json.obj [("topology", Json.obj
        [("rolloutAfter", Json.str "2024-01-01")])])])
    "f.yaml"
    [⟨"f.yaml", "spec.topology.rolloutAfter", "Never implemented, removed in v1beta2",
      "Remove this field", "warning"⟩] rfl rfl).1

/-! ## Claim C6: exit-code policy -/

/-- C6, counterexample.  The claim says every entry point exits 0 when the
run produced no error-severity findings (outside strict mode regardless of
warnings).  `migration_checker.main` has no error severity and no strict
mode at all: a run with a single warning-severity issue and zero
error-severity issues exits 1. -/
theorem c6_exit_code_counterexample :
    migrationExit [⟨"cluster.yaml", "apiVersion",
      "v1beta1 is deprecated, will be removed in August 2026",
      "Migrate to v1beta2 API version", "warning"⟩] = 1 ∧
    ([⟨"cluster.yaml", "apiVersion",
      "v1beta1 is deprecated, will be removed in August 2026",
      "Migrate to v1beta2 API version", "warning"⟩] :
        List MigrationIssue).countP (fun i => i.severity == "error") = 0 :=
  ⟨rfl, rfl⟩

/-- C6, amended: `validate_manifests` and `lint_cluster_templates` exit 0
iff there are no error-severity findings and, in strict mode only, no
warning-severity findings — a pure function of the counts.
`migration_checker`, whose issues are only ever warning or info severity,
instead exits non-zero iff at least one warning-severity issue exists, with
no strict mode. -/
theorem c6_exit_codes_amended :
    (∀ e w s, validateExit e w s = 0 ↔ (e = 0 ∧ (s = true → w = 0))) ∧
    (∀ results s, lintExit results s = 0 ↔
      ((results.any (fun r => r.has_errors)) = false ∧
       (s = true → (results.any (fun r => r.has_warnings)) = false))) ∧
    (∀ issues, migrationExit issues = 0 ↔
      issues.countP (fun i => i.severity == "warning") = 0) := by
  refine ⟨?_, ?_, ?_⟩
  · intro e w s
    unfold validateExit
    rcases s <;> rcases Nat.eq_zero_or_pos e with he | he <;>
      rcases Nat.eq_zero_or_pos w with hw | hw <;>
      simp [he, hw] <;> omega
  · intro results s
    unfold lintExit
    rcases hE : results.any (fun r => r.has_errors) <;>
      rcases hW : results.any (fun r => r.has_warnings) <;>
      rcases s <;> simp
  · intro issues
    show (if (issues.filter (fun i => i.severity == "warning")).isEmpty
      then 0 else 1) = 0 ↔ _
    by_cases hE : (issues.filter (fun i => i.severity == "warning")).isEmpty = true
    · rw [if_pos hE]
      rw [List.isEmpty_iff, List.filter_eq_nil_iff] at hE
      rw [List.countP_eq_zero]
      exact ⟨fun _ => hE, fun _ => rfl⟩
    · rw [if_neg hE]
      rw [Bool.not_eq_true] at hE
      constructor
      · intro h
        exact absurd h one_ne_zero
      · intro hcnt
        exact absurd (List.isEmpty_iff.mpr (List.filter_eq_nil_iff.mpr
          (List.countP_eq_zero.mp hcnt))) (by simp [hE])

/-! ## Claim C8: input-unavailable recovery -/

/-- C8, confirmed: when the external tool is missing, the command exits
non-zero, times out, or its output is not parseable JSON, then
`audit_security.run_kubectl_json` returns the empty item list without
raising, `migration_checker.analyze_live_resources` records no issues for
that resource type, and the run continues with the remaining resource types
exactly as if the failed type were skipped. -/
theorem c8_input_unavailable_recovered :
    (runKubectlJson .toolMissing = .ok (Json.arr []) ∧
     runKubectlJson .exitNonzero = .ok (Json.arr []) ∧
     runKubectlJson .timeout = .ok (Json.arr []) ∧
     runKubectlJson .badJson = .ok (Json.arr [])) ∧
    (∀ rt o, (o = FetchOutcome.exitNonzero ∨ o = FetchOutcome.timeout ∨
        o = FetchOutcome.badJson) → liveIssuesForType rt o = []) ∧
    (∀ pre rt o post, (o = FetchOutcome.exitNonzero ∨ o = FetchOutcome.timeout ∨
        o = FetchOutcome.badJson) →
      analyzeLiveResources true (pre ++ (rt, o) :: post) =
        analyzeLiveResources true pre ++ analyzeLiveResources true post) := by
  have hfail : ∀ rt o, (o = FetchOutcome.exitNonzero ∨ o = FetchOutcome.timeout ∨
      o = FetchOutcome.badJson) → liveIssuesForType rt o = [] := by
    intro rt o h
    rcases h with h | h | h <;> subst h <;> rfl
  refine ⟨⟨rfl, rfl, rfl, rfl⟩, hfail, ?_⟩
  intro pre rt o post h
  unfold analyzeLiveResources
  simp [hfail rt o h]

/-- C8, witness: the continuation clause at a concrete failed fetch wedged
between two other resource types. -/
theorem c8_input_unavailable_witness :
    analyzeLiveResources true
      ([("clusters.cluster.x-k8s.io", FetchOutcome.ok (Json.obj []))] ++
        ("machines.cluster.x-k8s.io", FetchOutcome.timeout) ::
        [("machinesets.cluster.x-k8s.io", FetchOutcome.badJson)]) =
    analyzeLiveResources true [("clusters.cluster.x-k8s.io", FetchOutcome.ok (Json.obj []))] ++
      analyzeLiveResources true [("machinesets.cluster.x-k8s.io", FetchOutcome.badJson)] :=
  c8_input_unavailable_recovered.2.2
    [("clusters.cluster.x-k8s.io", FetchOutcome.ok (Json.obj []))]
    "machines.cluster.x-k8s.io" FetchOutcome.timeout
    [("machinesets.cluster.x-k8s.io", FetchOutcome.badJson)]
    (Or.inr (Or.inl rfl))

/-! ## Claim C2: report severity counts -/

/-- C2, counterexample.  The claim says an AuditReport's high/medium/low
counts together account for all of its findings.  But the audit checks also
emit info-severity findings: running `check_network_security` on the empty
cluster document appends two info findings, and the resulting report has
`high_count + medium_count + low_count = 0` while holding 2 findings. -/
theorem c2_severity_counts_counterexample :
    checkNetworkSecurity (Json.obj []) = .ok
      [⟨"info", "Network", "Cluster/default/unknown",
        "No explicit clusterNetwork configuration",
        "Define clusterNetwork with appropriate CIDR ranges"⟩,
       ⟨"info", "Network", "Cluster/default/unknown",
        "CNI configuration not found in cluster variables",
        "Ensure CNI plugin is configured (calico, cilium, etc.)"⟩] ∧
    (AuditReport.mk "default/unknown"
      [⟨"info", "Network", "Cluster/default/unknown",
        "No explicit clusterNetwork configuration",
        "Define clusterNetwork with appropriate CIDR ranges"⟩,
       ⟨"info", "Network", "Cluster/default/unknown",
        "CNI configuration not found in cluster variables",
        "Ensure CNI plugin is configured (calico, cilium, etc.)"⟩]).high_count +
    (AuditReport.mk "default/unknown"
      [⟨"info", "Network", "Cluster/default/unknown",
        "No explicit clusterNetwork configuration",
        "Define clusterNetwork with appropriate CIDR ranges"⟩,
       ⟨"info", "Network", "Cluster/default/unknown",
        "CNI configuration not found in cluster variables",
        "Ensure CNI plugin is configured (calico, cilium, etc.)"⟩]).medium_count +
    (AuditReport.mk "default/unknown"
      [⟨"info", "Network", "Cluster/default/unknown",
        "No explicit clusterNetwork configuration",
        "Define clusterNetwork with appropriate CIDR ranges"⟩,
       ⟨"info", "Network", "Cluster/default/unknown",
        "CNI configuration not found in cluster variables",
        "Ensure CNI plugin is configured (calico, cilium, etc.)"⟩]).low_count = 0 ∧
    ([⟨"info", "Network", "Cluster/default/unknown",
        "No explicit clusterNetwork configuration",
        "Define clusterNetwork with appropriate CIDR ranges"⟩,
      ⟨"info", "Network", "Cluster/default/unknown",
        "CNI configuration not found in cluster variables",
        "Ensure CNI plugin is configured (calico, cilium, etc.)"⟩] :
      List Finding).length = 2 :=
  ⟨rfl, rfl, rfl⟩

/-- C2, amended: each AuditReport count tallies exactly the findings of its
own severity — nothing is double-counted — so `high + medium + low` equals
the number of findings with one of those three severities; findings of any
other severity (the info findings the checks emit) are in none of the
counts.  A ContractReport's `error_count` likewise equals the number of its
error-severity violations. -/
theorem c2_severity_counts_amended :
    (∀ r : AuditReport,
      r.high_count + r.medium_count + r.low_count +
        r.findings.countP (fun f => !(f.severity == "high" || f.severity == "medium"
          || f.severity == "low")) = r.findings.length) ∧
    (∀ cr : ContractReport,
      cr.error_count + cr.violations.countP (fun v => !(v.severity == "error")) =
        cr.violations.length) := by
  constructor
  · intro r
    unfold AuditReport.high_count AuditReport.medium_count AuditReport.low_count
    induction r.findings with
    | nil => rfl
    | cons f t ih =>
      simp only [List.countP_cons, List.length_cons]
      by_cases h1 : f.severity = "high" <;> by_cases h2 : f.severity = "medium" <;>
        by_cases h3 : f.severity = "low" <;> simp_all <;> omega
  · intro cr
    unfold ContractReport.error_count
    induction cr.violations with
    | nil => rfl
    | cons v t ih =>
      simp only [List.countP_cons, List.length_cons]
      by_cases h1 : v.severity = "error" <;> simp_all <;> omega

/-! ## Claim C7: contract compliance on CRD schemas -/

theorem except_error_bind {α β ε : Type} (e : ε) (f : α → Except ε β) :
    (Except.error e : Except ε α) >>= f = .error e := rfl

theorem except_ok_of_pure {α ε : Type} {a b : α}
    (h : (pure a : Except ε α) = .ok b) : a = b := by
  have h2 : Except.ok a = (Except.ok b : Except ε α) := h
  simpa using h2

theorem any_key_eq_lookup_isSome (k : String) (m : List (String × Json)) :
    (m.any (fun p => p.1 == k)) = (List.lookup k m).isSome := by
  induction m with
  | nil => rfl
  | cons a t ih =>
    obtain ⟨a1, a2⟩ := a
    by_cases h : a1 = k
    · subst h
      simp [List.lookup]
    · have h1 : (a1 == k) = false := by simpa using h
      have h2 : (k == a1) = false := by simpa using Ne.symm h
      simp [List.lookup, h1, h2, ih]

theorem filterMissing_subset {props : Json} {req r : List String}
    (h : filterMissing props req = .ok r) : ∀ f ∈ r, f ∈ req := by
  induction req generalizing r with
  | nil =>
    intro f hf
    simp only [filterMissing] at h
    have : r = [] := (except_ok_of_pure h).symm
    subst this
    simp at hf
  | cons g rest ih =>
    intro f hf
    simp only [filterMissing] at h
    obtain ⟨b, hb, h2⟩ := except_bind_ok_inv h
    obtain ⟨tail, htail, h3⟩ := except_bind_ok_inv h2
    have hr : r = if b then tail else g :: tail := (except_ok_of_pure h3).symm
    subst hr
    have hmem : f ∈ g :: tail := by
      by_cases hbv : b
      · rw [if_pos hbv] at hf
        exact List.mem_cons_of_mem g hf
      · rw [if_neg hbv] at hf
        exact hf
    rcases List.mem_cons.mp hmem with h | h
    · exact h ▸ List.mem_cons_self g rest
    · exact List.mem_cons_of_mem g (ih htail f h)

theorem checkSchemaFields_subset {s : Json} {req r : List String} {path : String}
    (h : checkSchemaFields s req path = .ok r) : ∀ f ∈ r, f ∈ req := by
  unfold checkSchemaFields at h
  obtain ⟨nav, hnav, h2⟩ := except_bind_ok_inv h
  cases nav with
  | none =>
    intro f hf
    have : r = req := (except_ok_of_pure h2).symm
    exact this ▸ hf
  | some current =>
    obtain ⟨props, hp, h3⟩ := except_bind_ok_inv h2
    exact filterMissing_subset h3

/-- Well-formedness of the status chain of an OpenAPI schema tree: every
node on `properties.status.properties`, where present, is a mapping.  (A
schema whose `properties` is a list or scalar is not an OpenAPI object
schema; Kubernetes rejects such CRDs.) -/
def statusChainWellFormed (s : Json) : Bool :=
  match s with
  | .obj m =>
    match List.lookup "properties" m with
    | none => true
    | some (.obj pm) =>
      (match List.lookup "status" pm with
       | none => true
       | some (.obj stm) =>
         (match List.lookup "properties" stm with
          | none => true
          | some (.obj _) => true
          | some _ => false)
       | some _ => false)
    | some _ => false
  | _ => false

theorem checkSchemaFields_status_ready {s : Json} {r : List String}
    (hwf : statusChainWellFormed s = true)
    (h : checkSchemaFields s ["ready"] "status" = .ok r) :
    r = (if readyUnderStatusProps s then [] else ["ready"]) := by
  unfold checkSchemaFields navigateSchema at h
  rw [show splitDots "status" = ["status"] from rfl] at h
  cases s with
  | obj m =>
    cases hp : List.lookup "properties" m with
    | none =>
      simp [pyGet, hp, readyUnderStatusProps, Json.lookup, except_ok_bind,
        except_error_bind, pyIn, filterMissing] at h ⊢
      exact (except_ok_of_pure h).symm
    | some p =>
      cases p with
      | obj pm =>
        cases hst : List.lookup "status" pm with
        | none =>
          simp [pyGet, hp, hst, any_key_eq_lookup_isSome, readyUnderStatusProps,
            Json.lookup, except_ok_bind, except_error_bind, pyIn, filterMissing] at h ⊢
          exact (except_ok_of_pure h).symm
        | some st =>
          cases st with
          | obj stm =>
            cases hsp : List.lookup "properties" stm with
            | none =>
              simp [pyGet, pyIn, pyIndex, hp, hst, hsp, any_key_eq_lookup_isSome,
                readyUnderStatusProps, Json.lookup, except_ok_bind,
                except_error_bind, filterMissing] at h ⊢
              rw [show (splitDots "ready").head?.getD "" = "ready" from rfl] at h
              simp [pyIn, except_ok_bind, navigateSchema, pyGet, hsp] at h
              exact h.symm
            | some sp =>
              cases sp with
              | obj spm =>
                simp [pyGet, pyIn, pyIndex, hp, hst, hsp, any_key_eq_lookup_isSome,
                  readyUnderStatusProps, Json.lookup, except_ok_bind,
                  except_error_bind, filterMissing] at h ⊢
                rw [show (splitDots "ready").head?.getD "" = "ready" from rfl] at h
                simp [pyIn, except_ok_bind, navigateSchema, pyGet, hsp] at h
                cases hr : List.lookup "ready" spm with
                | none =>
                  simp [hp, hst, hsp, hr] at h ⊢
                  exact h.symm
                | some v =>
                  simp [hp, hst, hsp, hr] at h ⊢
                  exact h
              | null => simp [statusChainWellFormed, hp, hst, hsp] at hwf
              | bool b => simp [statusChainWellFormed, hp, hst, hsp] at hwf
              | int n => simp [statusChainWellFormed, hp, hst, hsp] at hwf
              | str ss => simp [statusChainWellFormed, hp, hst, hsp] at hwf
              | arr xs => simp [statusChainWellFormed, hp, hst, hsp] at hwf
          | null => simp [statusChainWellFormed, hp, hst] at hwf
          | bool b => simp [statusChainWellFormed, hp, hst] at hwf
          | int n => simp [statusChainWellFormed, hp, hst] at hwf
          | str ss => simp [statusChainWellFormed, hp, hst] at hwf
          | arr xs => simp [statusChainWellFormed, hp, hst] at hwf
      | null => simp [statusChainWellFormed, hp] at hwf
      | bool b => simp [statusChainWellFormed, hp] at hwf
      | int n => simp [statusChainWellFormed, hp] at hwf
      | str ss => simp [statusChainWellFormed, hp] at hwf
      | arr xs => simp [statusChainWellFormed, hp] at hwf
  | null => simp [statusChainWellFormed] at hwf
  | bool b => simp [statusChainWellFormed] at hwf
  | int n => simp [statusChainWellFormed] at hwf
  | str ss => simp [statusChainWellFormed] at hwf
  | arr xs => simp [statusChainWellFormed] at hwf

/-- C7, confirmed: for an infrastructure-cluster CRD whose served
`openAPIV3Schema` is a non-empty, well-formed schema tree, the contract
check adds exactly one error-severity violation whose requirement names
`status.ready` when the schema lacks a `ready` key under
`status.properties`, and none when that key is present. -/
theorem c7_contract_status_ready (crd s : Json) (l : List ContractViolation)
    (hs : getCrdSchema crd = .ok s) (htr : truthy s = true)
    (hwf : statusChainWellFormed s = true)
    (hl : checkInfrastructureCluster crd = .ok l) :
    l.countP (fun v => v.severity == "error" &&
        v.requirement == "Contract requires status.ready") =
      (if readyUnderStatusProps s then 0 else 1) := by
  unfold checkInfrastructureCluster at hl
  obtain ⟨md, hmd, hl⟩ := except_bind_ok_inv hl
  obtain ⟨nameJ, hnmJ, hl⟩ := except_bind_ok_inv hl
  obtain ⟨crdName, hcn, hl⟩ := except_bind_ok_inv hl
  obtain ⟨s2, hs2, hl⟩ := except_bind_ok_inv hl
  have hs2s : s2 = s := Except.ok.inj (hs2.symm.trans hs)
  rw [hs2s] at hl
  rw [htr] at hl
  simp only [Bool.not_true, Bool.false_eq_true, if_false] at hl
  obtain ⟨missingSpec, hms, hl⟩ := except_bind_ok_inv hl
  obtain ⟨missingStatus, hmst, hl⟩ := except_bind_ok_inv hl
  obtain ⟨props, hp, hl⟩ := except_bind_ok_inv hl
  obtain ⟨statusNode, hsn, hl⟩ := except_bind_ok_inv hl
  obtain ⟨statusProps, hspr, hl⟩ := except_bind_ok_inv hl
  obtain ⟨hasCond, hhc, hl⟩ := except_bind_ok_inv hl
  have hleq := (except_ok_of_pure hl).symm
  subst hleq
  rw [List.countP_append, List.countP_append]
  have hA : (missingSpec.map (fun f =>
      (⟨"error", "Spec", crdName, "Missing required spec field: " ++ f,
        "Contract requires spec." ++ f⟩ : ContractViolation))).countP
      (fun v => v.severity == "error" &&
        v.requirement == "Contract requires status.ready") = 0 := by
    rw [List.countP_eq_zero]
    intro v hv
    rw [List.mem_map] at hv
    obtain ⟨f, hf, rfl⟩ := hv
    have hfe : f = "controlPlaneEndpoint" := by
      simpa [INFRA_CLUSTER_REQUIRED_SPEC] using checkSchemaFields_subset hms f hf
    subst hfe
    simp
  have hC : (if hasCond then [] else
      [(⟨"warning", "Conditions", crdName, "No conditions field in status",
        "Conditions recommended for observability"⟩ : ContractViolation)]).countP
      (fun v => v.severity == "error" &&
        v.requirement == "Contract requires status.ready") = 0 := by
    by_cases hcnd : hasCond
    · rw [if_pos hcnd]
      rfl
    · rw [if_neg hcnd]
      simp
  have hB := checkSchemaFields_status_ready hwf hmst
  by_cases hR : readyUnderStatusProps s = true
  · rw [if_pos hR] at hB
    rw [if_pos hR]
    subst hB
    simp [hA, hC]
  · rw [if_neg hR] at hB
    rw [if_neg hR]
    subst hB
    rw [hA, hC]
    rfl

/-- A well-formed infrastructure-cluster CRD schema containing
`status.properties.ready` (example input). -/
def exampleInfraSchema : Json :=
  Json.obj [("properties", Json.obj
    [("spec", Json.obj [("properties", Json.obj
        [("controlPlaneEndpoint", Json.obj [])])]),
     ("status", Json.obj [("properties", Json.obj
        [("ready", Json.obj []), ("conditions", Json.obj [])])])])]

/-- A CRD whose single served version carries `exampleInfraSchema`
(example input). -/
def exampleInfraCrd : Json :=
  Json.obj [("metadata", Json.obj
      [("name", Json.str "fooclusters.infrastructure.cluster.x-k8s.io")]),
    ("spec", Json.obj [("versions", Json.arr [Json.obj
      [("served", Json.bool true),
       ("schema", Json.obj [("openAPIV3Schema", exampleInfraSchema)])]])])]

/-- C7, witness: the theorem at a CRD whose schema contains
`status.properties.ready` — zero `status.ready` violations. -/
theorem c7_contract_status_ready_witness :
    ([] : List ContractViolation).countP (fun v => v.severity == "error" &&
        v.requirement == "Contract requires status.ready") =
      (if readyUnderStatusProps exampleInfraSchema then 0 else 1) :=
  c7_contract_status_ready exampleInfraCrd exampleInfraSchema [] rfl rfl rfl rfl

/-! ## Claim C4: supporting lemmas -/

theorem string_get?_append_left {l1 l2 : List Char} {i : Nat} (h : i < l1.length) :
    (l1 ++ l2).get? i = l1.get? i := by
  rw [List.get?_eq_getElem?, List.get?_eq_getElem?, List.getElem?_append, if_pos h]

theorem string_append_left_cancel {a b c : String} (h : a ++ b = a ++ c) : b = c := by
  have hd := congrArg String.data h
  rw [String.data_append, String.data_append] at hd
  exact String.ext (List.append_cancel_left hd)

theorem ne_of_data_get? {a b : String} {i : Nat}
    (h : a.data.get? i ≠ b.data.get? i) : a ≠ b :=
  fun he => h (by rw [he])

theorem validateReqMsg_inj {f g : String} (h : validateReqMsg f = validateReqMsg g) :
    f = g := string_append_left_cancel h

theorem validateReqMsg_get?_of_lt (f : String) (i : Nat)
    (h : i < ("Missing required field: " : String).data.length) :
    (validateReqMsg f).data.get? i =
      ("Missing required field: " : String).data.get? i := by
  unfold validateReqMsg
  rw [String.data_append]
  exact string_get?_append_left h

theorem lintReqMsg_inj {k f g : String} (h : lintReqMsg k f = lintReqMsg k g) :
    f = g := string_append_left_cancel h

theorem lintReqMsg_get?_of_lt (k f : String) (i : Nat)
    (h : i < ("Missing required spec field for " : String).data.length) :
    (lintReqMsg k f).data.get? i =
      ("Missing required spec field for " : String).data.get? i := by
  unfold lintReqMsg
  rw [String.data_append, String.data_append, String.data_append,
    List.append_assoc, List.append_assoc]
  exact string_get?_append_left h

theorem lookup_all_prop {α : Type} {p : α → Bool} {T : List (String × α)}
    (hT : T.all (fun e => p e.2) = true) {k : String} {v : α}
    (h : List.lookup k T = some v) : p v = true := by
  induction T with
  | nil => exact Option.noConfusion h
  | cons e t ih =>
    obtain ⟨ek, ev⟩ := e
    simp only [List.all_cons, Bool.and_eq_true] at hT
    obtain ⟨h1, h2⟩ := hT
    rw [List.lookup] at h
    by_cases hk : (k == ek) = true
    · simp only [hk] at h
      have : ev = v := by simpa using h
      exact this ▸ h1
    · have hk2 : (k == ek) = false := Bool.not_eq_true _ ▸ hk
      simp only [hk2] at h
      exact ih h2 h

theorem requiredIssuesV_obj (sm : List (String × Json)) (req : List String) :
    requiredIssuesV (Json.obj sm) req = .ok (req.flatMap (fun g =>
      if (List.lookup g sm).isSome then []
      else [⟨"spec." ++ g, validateReqMsg g, "error"⟩])) := by
  induction req with
  | nil => rfl
  | cons g rest ih =>
    rw [requiredIssuesV]
    rw [show pyIn g (Json.obj sm) = .ok (List.lookup g sm).isSome from by
      simp [pyIn, any_key_eq_lookup_isSome]]
    rw [except_ok_bind, ih, except_ok_bind]
    rw [List.flatMap_cons]
    rfl

theorem except_pure_bind {α β ε : Type} (a : α) (f : α → Except ε β) :
    (pure a : Except ε α) >>= f = f a := rfl

theorem countP_reqV_not_mem (sm : List (String × Json)) (req : List String)
    (f : String) (hnm : f ∉ req) :
    (req.flatMap (fun g =>
      if (List.lookup g sm).isSome then []
      else [(⟨"spec." ++ g, validateReqMsg g, "error"⟩ : ValidationError)])).countP
      (fun e => e.severity == "error" && e.message == validateReqMsg f) = 0 := by
  induction req with
  | nil => rfl
  | cons g rest ih =>
    rw [List.flatMap_cons, List.countP_append]
    have hg : validateReqMsg g ≠ validateReqMsg f := fun h =>
      hnm ((validateReqMsg_inj h) ▸ List.mem_cons_self g rest)
    have h0 : (if (List.lookup g sm).isSome then [] else
        [(⟨"spec." ++ g, validateReqMsg g, "error"⟩ : ValidationError)]).countP
        (fun e => e.severity == "error" && e.message == validateReqMsg f) = 0 := by
      split
      · rfl
      · simp [List.countP_cons, beq_eq_false_iff_ne.mpr hg]
    rw [h0, ih (fun h => hnm (List.mem_cons_of_mem g h))]

theorem countP_reqV_mem (sm : List (String × Json)) (req : List String)
    (f : String) (hnd : req.Nodup) (hf : f ∈ req) :
    (req.flatMap (fun g =>
      if (List.lookup g sm).isSome then []
      else [(⟨"spec." ++ g, validateReqMsg g, "error"⟩ : ValidationError)])).countP
      (fun e => e.severity == "error" && e.message == validateReqMsg f) =
      (if (List.lookup f sm).isSome then 0 else 1) := by
  induction req with
  | nil => cases hf
  | cons g rest ih =>
    rw [List.flatMap_cons, List.countP_append]
    rcases List.mem_cons.mp hf with heq | hmem
    · subst heq
      have hnm : f ∉ rest := (List.nodup_cons.mp hnd).1
      rw [countP_reqV_not_mem sm rest f hnm]
      by_cases hlk : (List.lookup f sm).isSome = true
      · rw [if_pos hlk, if_pos hlk]
        rfl
      · have hlkf : (List.lookup f sm).isSome = false := by
          cases hq : (List.lookup f sm).isSome
          · rfl
          · exact absurd hq hlk
        simp [hlkf]
    · have hg : validateReqMsg g ≠ validateReqMsg f := fun h =>
        (List.nodup_cons.mp hnd).1 ((validateReqMsg_inj h).symm ▸ hmem)
      have h0 : (if (List.lookup g sm).isSome then [] else
          [(⟨"spec." ++ g, validateReqMsg g, "error"⟩ : ValidationError)]).countP
          (fun e => e.severity == "error" && e.message == validateReqMsg f) = 0 := by
        split
        · rfl
        · simp [List.countP_cons, beq_eq_false_iff_ne.mpr hg]
      rw [h0, ih (List.nodup_cons.mp hnd).2 hmem]
      omega

theorem countP_vmsg_zero {l : List ValidationError} {f : String}
    (hl : ∀ x ∈ l, x.message ≠ validateReqMsg f) :
    l.countP (fun x => x.severity == "error" && x.message == validateReqMsg f) = 0 := by
  rw [List.countP_eq_zero]
  intro x hx
  simp [beq_eq_false_iff_ne.mpr (hl x hx)]

theorem mem_ite_nil_singleton {α : Type} {c : Prop} [Decidable c] {e x : α}
    (h : x ∈ (if c then ([] : List α) else [e])) : x = e := by
  split at h
  · cases h
  · simpa using h

theorem mem_ite_singleton_nil {α : Type} {c : Prop} [Decidable c] {e x : α}
    (h : x ∈ (if c then [e] else ([] : List α))) : x = e := by
  split at h
  · simpa using h
  · cases h

theorem clusterSpec_countP_zero {spec : Json} {out : List ValidationError}
    (f : String) (h : validateClusterSpec spec = .ok out) :
    out.countP (fun x => x.severity == "error" && x.message == validateReqMsg f) = 0 := by
  unfold validateClusterSpec at h
  obtain ⟨infraRef, hi, h⟩ := except_bind_ok_inv h
  obtain ⟨part1, hp1, h⟩ := except_bind_ok_inv h
  obtain ⟨cpRef, hc, h⟩ := except_bind_ok_inv h
  obtain ⟨part2, hp2, h⟩ := except_bind_ok_inv h
  have hout : out = part1 ++ part2 := (except_ok_of_pure h).symm
  subst hout
  rw [List.countP_append]
  have h1 : ∀ x ∈ part1, x.message ≠ validateReqMsg f := by
    unfold clusterInfraRefIssues at hp1
    by_cases ht : truthy infraRef = true
    · rw [if_pos ht] at hp1
      obtain ⟨kv, hk, hp1⟩ := except_bind_ok_inv hp1
      obtain ⟨nv, hn, hp1⟩ := except_bind_ok_inv hp1
      have hpeq := (except_ok_of_pure hp1).symm
      subst hpeq
      intro x hx
      rcases List.mem_append.mp hx with hx | hx
      · rw [mem_ite_nil_singleton hx]
        exact ne_of_data_get? (i := 8)
          (by rw [validateReqMsg_get?_of_lt f 8 (by decide)]; decide)
      · rw [mem_ite_nil_singleton hx]
        exact ne_of_data_get? (i := 8)
          (by rw [validateReqMsg_get?_of_lt f 8 (by decide)]; decide)
    · rw [if_neg ht] at hp1
      have hpeq : part1 = [] := (except_ok_of_pure hp1).symm
      subst hpeq
      intro x hx
      cases hx
  have h2 : ∀ x ∈ part2, x.message ≠ validateReqMsg f := by
    unfold clusterControlPlaneRefIssues at hp2
    by_cases ht : truthy cpRef = true
    · rw [if_pos ht] at hp2
      obtain ⟨kv, hk, hp2⟩ := except_bind_ok_inv hp2
      have hpeq := (except_ok_of_pure hp2).symm
      subst hpeq
      intro x hx
      rw [mem_ite_nil_singleton hx]
      exact ne_of_data_get? (i := 8)
        (by rw [validateReqMsg_get?_of_lt f 8 (by decide)]; decide)
    · rw [if_neg ht] at hp2
      have hpeq : part2 = [] := (except_ok_of_pure hp2).symm
      subst hpeq
      intro x hx
      cases hx
  rw [countP_vmsg_zero h1, countP_vmsg_zero h2]

theorem machineSpec_countP_zero {spec : Json} {out : List ValidationError}
    (f : String) (h : validateMachineSpec spec = .ok out) :
    out.countP (fun x => x.severity == "error" && x.message == validateReqMsg f) = 0 := by
  unfold validateMachineSpec at h
  obtain ⟨bootstrap, hb, h⟩ := except_bind_ok_inv h
  apply countP_vmsg_zero
  by_cases ht : truthy bootstrap = true
  · rw [if_pos ht] at h
    obtain ⟨cfg, hc, h⟩ := except_bind_ok_inv h
    obtain ⟨dsn, hd, h⟩ := except_bind_ok_inv h
    have hpeq := (except_ok_of_pure h).symm
    subst hpeq
    intro x hx
    rw [mem_ite_singleton_nil hx]
    exact ne_of_data_get? (i := 1)
      (by rw [validateReqMsg_get?_of_lt f 1 (by decide)]; decide)
  · rw [if_neg ht] at h
    have hpeq : out = [] := (except_ok_of_pure h).symm
    subst hpeq
    intro x hx
    cases hx

theorem machineDeploymentSpec_countP_zero {spec : Json} {out : List ValidationError}
    (f : String) (h : validateMachineDeploymentSpec spec = .ok out) :
    out.countP (fun x => x.severity == "error" && x.message == validateReqMsg f) = 0 := by
  unfold validateMachineDeploymentSpec at h
  obtain ⟨template, htl, h⟩ := except_bind_ok_inv h
  apply countP_vmsg_zero
  by_cases ht : truthy template = true
  · rw [if_pos ht] at h
    obtain ⟨ts, hts, h⟩ := except_bind_ok_inv h
    obtain ⟨b, hbv, h⟩ := except_bind_ok_inv h
    obtain ⟨ir, hir, h⟩ := except_bind_ok_inv h
    have hpeq := (except_ok_of_pure h).symm
    subst hpeq
    intro x hx
    rcases List.mem_append.mp hx with hx | hx
    · rw [mem_ite_nil_singleton hx]
      exact ne_of_data_get? (i := 8)
        (by rw [validateReqMsg_get?_of_lt f 8 (by decide)]; decide)
    · rw [mem_ite_nil_singleton hx]
      exact ne_of_data_get? (i := 8)
        (by rw [validateReqMsg_get?_of_lt f 8 (by decide)]; decide)
  · rw [if_neg ht] at h
    have hpeq : out = [] := (except_ok_of_pure h).symm
    subst hpeq
    intro x hx
    cases hx

theorem clusterClassSpec_countP_zero {spec : Json} {out : List ValidationError}
    (f : String) (h : validateClusterClassSpec spec = .ok out) :
    out.countP (fun x => x.severity == "error" && x.message == validateReqMsg f) = 0 := by
  unfold validateClusterClassSpec at h
  obtain ⟨infra, hi, h⟩ := except_bind_ok_inv h
  obtain ⟨part1, hp1, h⟩ := except_bind_ok_inv h
  obtain ⟨cp, hc, h⟩ := except_bind_ok_inv h
  obtain ⟨part2, hp2, h⟩ := except_bind_ok_inv h
  have hout : out = part1 ++ part2 := (except_ok_of_pure h).symm
  subst hout
  rw [List.countP_append]
  have h1 : ∀ x ∈ part1, x.message ≠ validateReqMsg f := by
    unfold classInfraIssues at hp1
    by_cases ht : truthy infra = true
    · rw [if_pos ht] at hp1
      obtain ⟨r, hr, hp1⟩ := except_bind_ok_inv hp1
      have hpeq := (except_ok_of_pure hp1).symm
      subst hpeq
      intro x hx
      rw [mem_ite_nil_singleton hx]
      exact ne_of_data_get? (i := 10)
        (by rw [validateReqMsg_get?_of_lt f 10 (by decide)]; decide)
    · rw [if_neg ht] at hp1
      have hpeq : part1 = [] := (except_ok_of_pure hp1).symm
      subst hpeq
      intro x hx
      cases hx
  have h2 : ∀ x ∈ part2, x.message ≠ validateReqMsg f := by
    unfold classControlPlaneIssues at hp2
    by_cases ht : truthy cp = true
    · rw [if_pos ht] at hp2
      obtain ⟨r, hr, hp2⟩ := except_bind_ok_inv hp2
      have hpeq := (except_ok_of_pure hp2).symm
      subst hpeq
      intro x hx
      rw [mem_ite_nil_singleton hx]
      exact ne_of_data_get? (i := 10)
        (by rw [validateReqMsg_get?_of_lt f 10 (by decide)]; decide)
    · rw [if_neg ht] at hp2
      have hpeq : part2 = [] := (except_ok_of_pure hp2).symm
      subst hpeq
      intro x hx
      cases hx
  rw [countP_vmsg_zero h1, countP_vmsg_zero h2]

theorem kindSpecificIssues_countP_zero {kindJ spec : Json}
    {sub : List ValidationError} (f : String)
    (h : kindSpecificIssues kindJ spec = .ok sub) :
    sub.countP (fun x => x.severity == "error" && x.message == validateReqMsg f) = 0 := by
  unfold kindSpecificIssues at h
  by_cases h1 : isStrEq kindJ "Cluster" = true
  · rw [if_pos h1] at h
    exact clusterSpec_countP_zero f h
  · rw [if_neg h1] at h
    by_cases h2 : isStrEq kindJ "Machine" = true
    · rw [if_pos h2] at h
      exact machineSpec_countP_zero f h
    · rw [if_neg h2] at h
      by_cases h3 : isStrEq kindJ "MachineDeployment" = true
      · rw [if_pos h3] at h
        exact machineDeploymentSpec_countP_zero f h
      · rw [if_neg h3] at h
        by_cases h4 : isStrEq kindJ "ClusterClass" = true
        · rw [if_pos h4] at h
          exact clusterClassSpec_countP_zero f h
        · rw [if_neg h4] at h
          have hsub : sub = [] := (except_ok_of_pure h).symm
          subst hsub
          rfl

theorem validateSpec_required_count (doc : Json) (k f : String)
    (req : List String) (sm : List (String × Json)) (l : List ValidationError)
    (hkind : pyGet doc "kind" (Json.str "") = .ok (Json.str k))
    (hreq : List.lookup k REQUIRED_FIELDS_VALIDATE = some req)
    (hf : f ∈ req)
    (hspec : pyGet doc "spec" (Json.obj []) = .ok (Json.obj sm))
    (hne : sm ≠ [])
    (hl : validateSpec doc = .ok l) :
    l.countP (fun e => e.severity == "error" && e.message == validateReqMsg f) =
      (if (List.lookup f sm).isSome then 0 else 1) := by
  have hnodup : req.Nodup := of_decide_eq_true
    (lookup_all_prop (p := fun r => decide r.Nodup) (by decide) hreq)
  unfold validateSpec at hl
  rw [hkind, except_ok_bind, hspec, except_ok_bind] at hl
  have htr : truthy (Json.obj sm) = true := by
    simp [truthy, hne]
  rw [htr] at hl
  simp only [Bool.not_true, Bool.false_eq_true, if_false] at hl
  rw [show requiredListFor (Json.str k) REQUIRED_FIELDS_VALIDATE =
      ((tableLookup (Json.str k) REQUIRED_FIELDS_VALIDATE : Except String _) >>=
        fun r => match r with | some r => pure r | none => pure []) from rfl] at hl
  rw [show (tableLookup (Json.str k) REQUIRED_FIELDS_VALIDATE : Except String _) =
      .ok (List.lookup k REQUIRED_FIELDS_VALIDATE) from rfl, hreq,
    except_ok_bind] at hl
  have hl2 : (do
      let reqIssues ← requiredIssuesV (Json.obj sm) req
      let sub ← kindSpecificIssues (Json.str k) (Json.obj sm)
      pure (reqIssues ++ sub)) = Except.ok l := hl
  rw [requiredIssuesV_obj, except_ok_bind] at hl2
  obtain ⟨sub, hsub, hl2⟩ := except_bind_ok_inv hl2
  have hout := (except_ok_of_pure hl2).symm
  subst hout
  rw [List.countP_append, countP_reqV_mem sm req f hnodup hf,
    kindSpecificIssues_countP_zero f hsub]
  omega

/-- The topology carve-out as a pure predicate over a mapping spec. -/
def lintSkip (kind : String) (sm : List (String × Json)) (f : String) : Bool :=
  kind == "Cluster" && ((List.lookup "topology" sm).isSome &&
    (f == "infrastructureRef" || f == "controlPlaneRef"))

theorem lintSkipField_obj (k : String) (sm : List (String × Json)) (f : String) :
    lintSkipField k (Json.obj sm) f = .ok (lintSkip k sm f) := by
  unfold lintSkipField lintSkip
  by_cases h : (k == "Cluster") = true
  · rw [if_pos h, h]
    simp [pyIn, any_key_eq_lookup_isSome, except_ok_bind]
  · have hf : (k == "Cluster") = false := Bool.not_eq_true _ ▸ h
    rw [if_neg h, hf]
    rfl

theorem lintRequiredIssues_obj (k : String) (sm : List (String × Json))
    (fp : String) (line : Nat) (req : List String) :
    lintRequiredIssues k (Json.obj sm) fp line req = .ok (req.flatMap (fun g =>
      if lintSkip k sm g then []
      else if (List.lookup g sm).isSome then []
      else [⟨Severity.error, lintReqMsg k g, fp, some line, none⟩])) := by
  induction req with
  | nil => rfl
  | cons g rest ih =>
    rw [lintRequiredIssues, lintSkipField_obj, except_ok_bind, List.flatMap_cons]
    by_cases hs : lintSkip k sm g = true
    · rw [if_pos hs, if_pos hs, ih]
      rfl
    · rw [if_neg hs, if_neg hs]
      rw [show pyIn g (Json.obj sm) = .ok (List.lookup g sm).isSome from by
        simp [pyIn, any_key_eq_lookup_isSome]]
      rw [except_ok_bind, ih, except_ok_bind]
      rfl

theorem lintReqMsg_ne_of_ne {k f g : String} (h : g ≠ f) :
    lintReqMsg k g ≠ lintReqMsg k f := fun he => h (lintReqMsg_inj he)

theorem countP_reqL_not_mem (k : String) (sm : List (String × Json))
    (fp : String) (line : Nat) (req : List String) (f : String) (hnm : f ∉ req) :
    (req.flatMap (fun g =>
      if lintSkip k sm g then []
      else if (List.lookup g sm).isSome then []
      else [(⟨Severity.error, lintReqMsg k g, fp, some line, none⟩ : LintIssue)])).countP
      (fun i => decide (i.severity = Severity.error) && i.message == lintReqMsg k f)
      = 0 := by
  induction req with
  | nil => rfl
  | cons g rest ih =>
    rw [List.flatMap_cons, List.countP_append]
    have hg : lintReqMsg k g ≠ lintReqMsg k f :=
      lintReqMsg_ne_of_ne (fun h => hnm (h ▸ List.mem_cons_self g rest))
    have h0 : (if lintSkip k sm g then []
        else if (List.lookup g sm).isSome then []
        else [(⟨Severity.error, lintReqMsg k g, fp, some line, none⟩ : LintIssue)]).countP
        (fun i => decide (i.severity = Severity.error) && i.message == lintReqMsg k f)
        = 0 := by
      split
      · rfl
      · split
        · rfl
        · simp [List.countP_cons, beq_eq_false_iff_ne.mpr hg]
    rw [h0, ih (fun h => hnm (List.mem_cons_of_mem g h))]

theorem countP_reqL_mem (k : String) (sm : List (String × Json))
    (fp : String) (line : Nat) (req : List String) (f : String)
    (hnd : req.Nodup) (hf : f ∈ req) :
    (req.flatMap (fun g =>
      if lintSkip k sm g then []
      else if (List.lookup g sm).isSome then []
      else [(⟨Severity.error, lintReqMsg k g, fp, some line, none⟩ : LintIssue)])).countP
      (fun i => decide (i.severity = Severity.error) && i.message == lintReqMsg k f)
      = (if lintSkip k sm f then 0
         else if (List.lookup f sm).isSome then 0 else 1) := by
  induction req with
  | nil => cases hf
  | cons g rest ih =>
    rw [List.flatMap_cons, List.countP_append]
    rcases List.mem_cons.mp hf with heq | hmem
    · subst heq
      have hnm : f ∉ rest := (List.nodup_cons.mp hnd).1
      rw [countP_reqL_not_mem k sm fp line rest f hnm]
      by_cases hs : lintSkip k sm f = true
      · rw [if_pos hs, if_pos hs]
        rfl
      · rw [if_neg hs, if_neg hs]
        by_cases hlk : (List.lookup f sm).isSome = true
        · rw [if_pos hlk, if_pos hlk]
          rfl
        · rw [if_neg hlk, if_neg hlk]
          simp
    · have hg : lintReqMsg k g ≠ lintReqMsg k f :=
        lintReqMsg_ne_of_ne (fun h => (List.nodup_cons.mp hnd).1 (h.symm ▸ hmem))
      have h0 : (if lintSkip k sm g then []
          else if (List.lookup g sm).isSome then []
          else [(⟨Severity.error, lintReqMsg k g, fp, some line, none⟩ : LintIssue)]).countP
          (fun i => decide (i.severity = Severity.error) && i.message == lintReqMsg k f)
          = 0 := by
        split
        · rfl
        · split
          · rfl
          · simp [List.countP_cons, beq_eq_false_iff_ne.mpr hg]
      rw [h0, ih (List.nodup_cons.mp hnd).2 hmem]
      omega

theorem countP_lintMsg_zero {l : List LintIssue} {k f : String}
    (hl : ∀ x ∈ l, x.severity = Severity.warning ∨ x.message ≠ lintReqMsg k f) :
    l.countP (fun i => decide (i.severity = Severity.error) &&
      i.message == lintReqMsg k f) = 0 := by
  rw [List.countP_eq_zero]
  intro x hx
  rcases hl x hx with h | h
  · simp [h]
  · simp [beq_eq_false_iff_ne.mpr h]

theorem metadataNameIssues_countP_zero {doc : Json} {out : List LintIssue}
    {fp : String} {line : Nat} (k f : String)
    (h : metadataNameIssues doc fp line = .ok out) :
    out.countP (fun i => decide (i.severity = Severity.error) &&
      i.message == lintReqMsg k f) = 0 := by
  unfold metadataNameIssues at h
  obtain ⟨hasMd, hmd, h⟩ := except_bind_ok_inv h
  apply countP_lintMsg_zero
  by_cases hb : hasMd = true
  · rw [if_pos hb] at h
    obtain ⟨md, hmd2, h⟩ := except_bind_ok_inv h
    obtain ⟨hasName, hn, h⟩ := except_bind_ok_inv h
    have hpeq := (except_ok_of_pure h).symm
    subst hpeq
    intro x hx
    right
    rw [mem_ite_nil_singleton hx]
    show ("Missing required field: metadata.name" : String) ≠ lintReqMsg k f
    exact ne_of_data_get? (i := 17)
      (by rw [lintReqMsg_get?_of_lt k f 17 (by decide)]; decide)
  · rw [if_neg hb] at h
    have hpeq := (except_ok_of_pure h).symm
    subst hpeq
    intro x hx
    right
    have hx2 := List.mem_singleton.mp hx
    subst hx2
    show ("Missing required field: metadata" : String) ≠ lintReqMsg k f
    exact ne_of_data_get? (i := 17)
      (by rw [lintReqMsg_get?_of_lt k f 17 (by decide)]; decide)

theorem apiVersionDeprecationIssues_warning {av : Json} {out : List LintIssue}
    {fp : String} {line : Nat} (h : apiVersionDeprecationIssues av fp line = .ok out) :
    ∀ x ∈ out, x.severity = Severity.warning := by
  unfold apiVersionDeprecationIssues at h
  obtain ⟨info?, hinfo, h⟩ := except_bind_ok_inv h
  split at h
  · next info =>
    by_cases hd : info.1 = true
    · rw [if_pos hd] at h
      obtain ⟨avStr, hstr, h⟩ := except_bind_ok_inv h
      have hpeq := (except_ok_of_pure h).symm
      subst hpeq
      intro x hx
      have hx2 := List.mem_singleton.mp hx
      subst hx2
      rfl
    · rw [if_neg hd] at h
      have hpeq := (except_ok_of_pure h).symm
      subst hpeq
      intro x hx
      cases hx
  · next =>
    have hpeq := (except_ok_of_pure h).symm
    subst hpeq
    intro x hx
    cases hx

theorem lintDeprecatedIssues_warning (entries : List (String × String × String))
    (doc : Json) (fp : String) (line : Nat) :
    ∀ x ∈ lintDeprecatedIssues entries doc fp line,
      x.severity = Severity.warning := by
  intro x hx
  unfold lintDeprecatedIssues at hx
  rw [List.mem_filterMap] at hx
  obtain ⟨e, he, hfe⟩ := hx
  by_cases hc : deprecatedFieldFound doc (splitDots e.1) = true
  · rw [if_pos hc] at hfe
    have := Option.some.inj hfe
    rw [← this]
  · rw [if_neg hc] at hfe
    exact Option.noConfusion hfe

theorem kindDeprecatedFieldIssues_countP_zero {kindJ doc : Json}
    {out : List LintIssue} {fp : String} {line : Nat} (k f : String)
    (h : kindDeprecatedFieldIssues kindJ doc fp line = .ok out) :
    out.countP (fun i => decide (i.severity = Severity.error) &&
      i.message == lintReqMsg k f) = 0 := by
  unfold kindDeprecatedFieldIssues at h
  obtain ⟨entries?, hent, h⟩ := except_bind_ok_inv h
  apply countP_lintMsg_zero
  split at h
  · next entries =>
    have hpeq := (except_ok_of_pure h).symm
    subst hpeq
    intro x hx
    exact Or.inl (lintDeprecatedIssues_warning entries doc fp line x hx)
  · next =>
    have hpeq := (except_ok_of_pure h).symm
    subst hpeq
    intro x hx
    cases hx

theorem lintDocument_required_count (doc : Json) (k f fp : String) (line : Nat)
    (req : List String) (sm : List (String × Json)) (l : List LintIssue)
    (hkind : pyGet doc "kind" (Json.str "") = .ok (Json.str k))
    (hreq : List.lookup k CAPI_KINDS = some req)
    (hf : f ∈ req)
    (hspec : pyGet doc "spec" (Json.obj []) = .ok (Json.obj sm))
    (hl : lintDocument doc fp line = .ok l) :
    l.countP (fun i => decide (i.severity = Severity.error) &&
        i.message == lintReqMsg k f) =
      (if lintSkip k sm f then 0
       else if (List.lookup f sm).isSome then 0 else 1) := by
  have hnodup : req.Nodup := of_decide_eq_true
    (lookup_all_prop (p := fun r => decide r.Nodup) (by decide) hreq)
  unfold lintDocument at hl
  obtain ⟨hasAV, hhav, hl⟩ := except_bind_ok_inv hl
  obtain ⟨hasK, hhk, hl⟩ := except_bind_ok_inv hl
  obtain ⟨a3, h3, hl⟩ := except_bind_ok_inv hl
  obtain ⟨av, hav, hl⟩ := except_bind_ok_inv hl
  obtain ⟨b, hb, hl⟩ := except_bind_ok_inv hl
  obtain ⟨kindJ, hkJ, hl⟩ := except_bind_ok_inv hl
  have hkindeq : kindJ = Json.str k := Except.ok.inj (hkJ.symm.trans hkind)
  rw [hkindeq] at hl
  obtain ⟨c, hc, hl⟩ := except_bind_ok_inv hl
  obtain ⟨d, hd, hl⟩ := except_bind_ok_inv hl
  have hout := (except_ok_of_pure hl).symm
  subst hout
  have hceq : c = req.flatMap (fun g =>
      if lintSkip k sm g then []
      else if (List.lookup g sm).isSome then []
      else [(⟨Severity.error, lintReqMsg k g, fp, some line, none⟩ : LintIssue)]) := by
    unfold kindRequiredSpecIssues at hc
    rw [show (tableLookup (Json.str k) CAPI_KINDS :
        Except String (Option (List String))) =
      .ok (List.lookup k CAPI_KINDS) from rfl, hreq, except_ok_bind] at hc
    have hc2 : (do
        let k2 ← pyStrE (Json.str k)
        let spec ← pyGet doc "spec" (Json.obj [])
        lintRequiredIssues k2 spec fp line req) = Except.ok c := hc
    rw [show pyStrE (Json.str k) = .ok k from rfl, except_ok_bind, hspec,
      except_ok_bind, lintRequiredIssues_obj] at hc2
    exact (Except.ok.inj hc2).symm
  subst hceq
  rw [List.countP_append, List.countP_append, List.countP_append,
    List.countP_append, List.countP_append]
  have ha1 : (if hasAV = true then [] else
      [(⟨Severity.error, "Missing required field: apiVersion", fp, some line,
        none⟩ : LintIssue)]).countP
      (fun i => decide (i.severity = Severity.error) &&
        i.message == lintReqMsg k f) = 0 := by
    apply countP_lintMsg_zero
    intro x hx
    right
    rw [mem_ite_nil_singleton hx]
    show ("Missing required field: apiVersion" : String) ≠ lintReqMsg k f
    exact ne_of_data_get? (i := 17)
      (by rw [lintReqMsg_get?_of_lt k f 17 (by decide)]; decide)
  have ha2 : (if hasK = true then [] else
      [(⟨Severity.error, "Missing required field: kind", fp, some line,
        none⟩ : LintIssue)]).countP
      (fun i => decide (i.severity = Severity.error) &&
        i.message == lintReqMsg k f) = 0 := by
    apply countP_lintMsg_zero
    intro x hx
    right
    rw [mem_ite_nil_singleton hx]
    show ("Missing required field: kind" : String) ≠ lintReqMsg k f
    exact ne_of_data_get? (i := 17)
      (by rw [lintReqMsg_get?_of_lt k f 17 (by decide)]; decide)
  rw [ha1, ha2, metadataNameIssues_countP_zero k f h3,
    countP_lintMsg_zero (fun x hx =>
      Or.inl (apiVersionDeprecationIssues_warning hb x hx)),
    countP_reqL_mem k sm fp line req f hnodup hf,
    kindDeprecatedFieldIssues_countP_zero k f hd]
  omega

/-! ## Claim C4: the required-present rule -/

/-- C4, counterexample.  The claim says that for every Document of a listed
kind and every required spec field, the evaluator emits exactly one
error-severity missing-required-field Finding when the field is absent.
`lint_document` lists `infrastructureRef` as required for `Cluster`, yet on
a Cluster whose spec contains `topology` (and no `infrastructureRef`) it
emits no issues at all: the topology carve-out skips the requirement. -/
theorem c4_required_present_counterexample :
    "infrastructureRef" ∈ (List.lookup "Cluster" CAPI_KINDS).getD [] ∧
    List.lookup "infrastructureRef"
      [("topology", Json.obj ([] : List (String × Json)))] = none ∧
    lintDocument (Json.obj [("apiVersion", Json.str "cluster.x-k8s.io/v1beta1"),
        ("kind", Json.str "Cluster"),
        ("metadata", Json.obj [("name", Json.str "c")]),
        ("spec", Json.obj [("topology", Json.obj [])])]) "cluster.yaml" 1 =
      .ok [] :=
  ⟨by decide, rfl, rfl⟩

/-- C4, amended: for every Document of a kind listed in the rule tables and
every required spec field of that kind, with the document's spec a mapping,
the evaluator emits exactly one error-severity missing-required-field
Finding when the field is absent from spec and zero when present — except
that `lint_document` skips the `infrastructureRef` and `controlPlaneRef`
requirements for Cluster documents whose spec contains `topology`, and
`validate_spec` replaces all per-field Findings by a single "Missing spec
field" error when the spec is empty or missing (so the per-field behavior
holds for non-empty mapping specs). -/
theorem c4_required_present_amended :
    (∀ doc k f req sm l,
      pyGet doc "kind" (Json.str "") = .ok (Json.str k) →
      List.lookup k REQUIRED_FIELDS_VALIDATE = some req →
      f ∈ req →
      pyGet doc "spec" (Json.obj []) = .ok (Json.obj sm) →
      sm ≠ [] →
      validateSpec doc = .ok l →
      l.countP (fun e => e.severity == "error" && e.message == validateReqMsg f) =
        (if (List.lookup f sm).isSome then 0 else 1)) ∧
    (∀ doc k f fp line req sm l,
      pyGet doc "kind" (Json.str "") = .ok (Json.str k) →
      List.lookup k CAPI_KINDS = some req →
      f ∈ req →
      pyGet doc "spec" (Json.obj []) = .ok (Json.obj sm) →
      lintDocument doc fp line = .ok l →
      l.countP (fun i => decide (i.severity = Severity.error) &&
          i.message == lintReqMsg k f) =
        (if lintSkip k sm f then 0
         else if (List.lookup f sm).isSome then 0 else 1)) :=
  ⟨fun doc k f req sm l h1 h2 h3 h4 h5 h6 =>
    validateSpec_required_count doc k f req sm l h1 h2 h3 h4 h5 h6,
   fun doc k f fp line req sm l h1 h2 h3 h4 h5 =>
    lintDocument_required_count doc k f fp line req sm l h1 h2 h3 h4 h5⟩
